import Mathlib

/-!
# Forwarder of the gateway bridge: a shallow embedding

The development embeds `internal/forwarder/forwarder.go`: the `Setup` entry point, the
subscription loop and the seven relay loops.  Endpoint calls, log lines, started loops and
faults are recorded, in order, in a trace; the answers of the two endpoints and of the
metadata provider are functions of the trace so far, so that every pattern of failures is
covered by quantifying over them.  Concurrency is a schedule: a list of choices, each one
either letting a started loop receive its next item or letting a spawned goroutine run.
The body of a goroutine (id extraction, the call, the log line of its failure) is one
step of the schedule, and so is one iteration of the subscription loop; an unrecovered
fault in a goroutine ends the process, after which no step does anything.
-/

namespace forwarder

/-! ## Bytes, fixed-size arrays and the builtin `copy` -/

/-- One byte. -/
abbrev Byte := Fin 256

/-- A Go array `[n]byte`: a byte list of length exactly `n`. -/
abbrev FixedBytes (n : Nat) := { l : List Byte // l.length = n }

/-- The type `lorawan.EUI64`, declared in Go as `[8]byte`. -/
abbrev EUI64 := FixedBytes 8

/-- The type `uuid.UUID`, declared in Go as `[16]byte`. -/
abbrev UUID := FixedBytes 16

/-- The zero value of `[n]byte`, what `var x [n]byte` declares. -/
def zeroBytes (n : Nat) : FixedBytes n := ⟨List.replicate n 0, List.length_replicate n 0⟩

/-- The Go builtin `copy(dst[:], src)` on a destination array: the first
`min (len dst) (len src)` bytes of `dst` are overwritten by those of `src`, the rest of
`dst` is kept. -/
def copy {n : Nat} (dst : FixedBytes n) (src : List Byte) : FixedBytes n :=
  ⟨src.take n ++ dst.val.drop src.length, by
    have h := dst.property
    simp only [List.length_append, List.length_take, List.length_drop, h]
    omega⟩

/-! ## Errors -/

/-- Go error values: a fresh error (`errors.New`, `fmt.Errorf`) or an error wrapped with a
message by `errors.Wrap`. -/
inductive Error where
  | new (msg : String)
  | wrap (cause : Error) (msg : String)
  deriving DecidableEq, Repr

namespace errors

/-- The call `errors.New(msg)`. -/
def New (msg : String) : Error := Error.new msg

/-- The call `errors.Wrap(err, msg)` on a non-nil `err`: a new error value that records
`err` as its cause. -/
def Wrap (err : Error) (msg : String) : Error := Error.wrap err msg

/-- The call `errors.Cause(err)`: the innermost wrapped error. -/
def Cause : Error → Error
  | Error.new msg => Error.new msg
  | Error.wrap cause _ => Cause cause

end errors

/-! ## Parsing a gateway id -/

namespace hex

/-- The value of one hexadecimal digit, either case, as `encoding/hex` reads it. -/
def fromHexChar (c : Char) : Option Nat :=
  if '0' ≤ c ∧ c ≤ '9' then some (c.toNat - '0'.toNat)
  else if 'a' ≤ c ∧ c ≤ 'f' then some (c.toNat - 'a'.toNat + 10)
  else if 'A' ≤ c ∧ c ≤ 'F' then some (c.toNat - 'A'.toNat + 10)
  else none

/-- The error `hex.InvalidByteError`. -/
def InvalidByteError (c : Char) : Error :=
  Error.new ("encoding/hex: invalid byte: " ++ c.toString)

/-- The error `hex.ErrLength`. -/
def ErrLength : Error := Error.new "encoding/hex: odd length hex string"

/-- Modelled from the spec: `hex.Decode` of the Go standard library, which is not under
`src/`; the spec only says that a gateway id is hex-encoded.  Characters are read two by
two, the first one that is no hexadecimal digit is reported, and an odd number of
characters is an error. -/
def Decode : List Char → Except Error (List Byte)
  | [] => Except.ok []
  | [p] =>
    match fromHexChar p with
    | none => Except.error (InvalidByteError p)
    | some _ => Except.error ErrLength
  | p :: q :: rest =>
    match fromHexChar p with
    | none => Except.error (InvalidByteError p)
    | some a =>
      match fromHexChar q with
      | none => Except.error (InvalidByteError q)
      | some b =>
        match Decode rest with
        | Except.error err => Except.error err
        | Except.ok bs => Except.ok (⟨(a * 16 + b) % 256, Nat.mod_lt _ (by decide)⟩ :: bs)

/-- The call `hex.DecodeString(s)`. -/
def DecodeString (s : String) : Except Error (List Byte) := Decode s.toList

end hex

/-- Modelled from the spec: `lorawan.EUI64.UnmarshalText`, which is not under `src/`; the
spec says that a gateway id of the startup configuration is a hex-encoded 8-byte
identifier and that malformed input is an error.  The text is decoded as hexadecimal and
must give exactly 8 bytes. -/
def UnmarshalText (text : String) : Except Error EUI64 :=
  match hex.DecodeString text with
  | Except.error err => Except.error err
  | Except.ok b =>
    if h : b.length = 8 then Except.ok ⟨b, h⟩
    else Except.error (Error.new "lorawan: exactly 8 bytes are expected")

/-- The spec's words for a well-formed configured gateway id: a hex-encoded 8-byte
identifier, that is sixteen hexadecimal digits. -/
def IsHexEUI64 (text : String) : Prop :=
  text.toList.length = 16 ∧ ∀ c ∈ text.toList, (hex.fromHexChar c).isSome = true

instance (text : String) : Decidable (IsHexEUI64 text) := by
  unfold IsHexEUI64; exact inferInstance

/-! ## Messages of the `gw` package

Only the fields the forwarder reads or writes are named; the other fields of each
message are kept together in `rest`. -/

/-- The message `gw.UplinkRXInfo`. -/
structure UplinkRXInfo where
  GatewayId : List Byte
  UplinkId : List Byte
  rest : List Byte
  deriving DecidableEq, Repr

/-- The message `gw.UplinkFrame`; `RxInfo` is a pointer and may be nil. -/
structure UplinkFrame where
  PhyPayload : List Byte
  TxInfo : Option (List Byte)
  RxInfo : Option UplinkRXInfo
  deriving DecidableEq, Repr

/-- The Go type `map[string]string` of the stats metadata, as its list of entries. -/
abbrev MetaData := List (String × String)

/-- The message `gw.GatewayStats`. -/
structure GatewayStats where
  GatewayId : List Byte
  StatsId : List Byte
  MetaData : MetaData
  rest : List Byte
  deriving DecidableEq, Repr

/-- The message `gw.DownlinkTXAck`. -/
structure DownlinkTXAck where
  GatewayId : List Byte
  DownlinkId : List Byte
  rest : List Byte
  deriving DecidableEq, Repr

/-- The message `gw.RawPacketForwarderEvent`. -/
structure RawPacketForwarderEvent where
  GatewayId : List Byte
  RawId : List Byte
  Payload : List Byte
  deriving DecidableEq, Repr

/-- The message `gw.DownlinkFrame`. -/
structure DownlinkFrame where
  GatewayId : List Byte
  DownlinkId : List Byte
  rest : List Byte
  deriving DecidableEq, Repr

/-- The message `gw.GatewayConfiguration`. -/
structure GatewayConfiguration where
  GatewayId : List Byte
  Version : String
  rest : List Byte
  deriving DecidableEq, Repr

/-- The message `gw.RawPacketForwarderCommand`. -/
structure RawPacketForwarderCommand where
  GatewayId : List Byte
  RawId : List Byte
  Payload : List Byte
  deriving DecidableEq, Repr

/-- An item of the backend's subscribe-event channel. -/
structure SubscribeEvent where
  Subscribe : Bool
  GatewayID : EUI64
  deriving DecidableEq, Repr

/-- The event kinds `integration.EventUp`, `EventStats`, `EventAck` and `EventRaw`. -/
inductive EventType where
  | EventUp
  | EventStats
  | EventAck
  | EventRaw
  deriving DecidableEq, Repr

/-- The `proto.Message` handed to `PublishEvent`: a pointer to one of the four events. -/
inductive Payload where
  | UplinkFrame (v : UplinkFrame)
  | GatewayStats (v : GatewayStats)
  | DownlinkTXAck (v : DownlinkTXAck)
  | RawPacketForwarderEvent (v : RawPacketForwarderEvent)
  deriving DecidableEq, Repr

/-! ## Endpoint calls, log lines and the trace -/

/-- A method call on one of the two endpoints, with its arguments. -/
inductive Call where
  | SetGatewaySubscription (subscribe : Bool) (gatewayID : EUI64)
  | PublishEvent (gatewayID : EUI64) (event : EventType) (id : UUID) (v : Payload)
  | SendDownlinkFrame (v : DownlinkFrame)
  | ApplyConfiguration (v : GatewayConfiguration)
  | RawPacketForwarderCommand (v : RawPacketForwarderCommand)
  deriving DecidableEq, Repr

/-- The value of a structured log field. -/
inductive FieldValue where
  | eui64 (v : EUI64)
  | eventType (v : EventType)
  | uuid (v : UUID)
  deriving DecidableEq, Repr

/-- One entry written at error level: `log.WithError(err).WithFields(fields).Error(msg)`. -/
structure LogEntry where
  err : Error
  fields : List (String × FieldValue)
  msg : String
  deriving DecidableEq, Repr

/-- The eight loops that `Setup` starts. -/
inductive Loop where
  | gatewaySubscribeLoop
  | forwardUplinkFrameLoop
  | forwardGatewayStatsLoop
  | forwardDownlinkTxAckLoop
  | forwardDownlinkFrameLoop
  | forwardGatewayConfigurationLoop
  | forwardRawPacketForwarderCommandLoop
  | forwardRawPacketForwarderEventLoop
  deriving DecidableEq, Repr

/-- What the forwarder does that can be observed, in the order it does it. -/
inductive Ev where
  | call (c : Call) (result : Option Error)
  | log (entry : LogEntry)
  | go (l : Loop)
  | fault (msg : String)
  deriving DecidableEq, Repr

/-! ## The endpoints

Every method answers `none` (a nil error) or `some err`; the answer may depend on
everything that happened before, which is the trace at the moment of the call. -/

/-- The methods of `backend.Backend` that the forwarder calls. -/
structure Backend where
  SendDownlinkFrame : List Ev → DownlinkFrame → Option Error
  ApplyConfiguration : List Ev → GatewayConfiguration → Option Error
  RawPacketForwarderCommand : List Ev → RawPacketForwarderCommand → Option Error

/-- The methods of `integration.Integration` that the forwarder calls. -/
structure Integration where
  SetGatewaySubscription : List Ev → Bool → EUI64 → Option Error
  PublishEvent : List Ev → EUI64 → EventType → UUID → Payload → Option Error

/-- Modelled from the spec: `metadata.Get()` of `internal/metadata`, which is not under
`src/`.  The spec describes a no-argument accessor that returns a structured value whose
content the forwarder does not look at: any value may come back, and it may change from
one call to the next, so it is a function of what happened before. -/
abbrev MetadataGet := List Ev → MetaData

/-- The live instances behind `backend.GetBackend()` and `integration.GetIntegration()`
once both are set, and the metadata provider `metadata.Get()`. -/
structure World where
  b : Backend
  i : Integration
  metadataGet : MetadataGet

/-- The answer of the endpoint method that `c` names. -/
def World.invoke (w : World) (history : List Ev) : Call → Option Error
  | Call.SetGatewaySubscription subscribe gatewayID =>
    w.i.SetGatewaySubscription history subscribe gatewayID
  | Call.PublishEvent gatewayID event id v => w.i.PublishEvent history gatewayID event id v
  | Call.SendDownlinkFrame v => w.b.SendDownlinkFrame history v
  | Call.ApplyConfiguration v => w.b.ApplyConfiguration history v
  | Call.RawPacketForwarderCommand v => w.b.RawPacketForwarderCommand history v

/-! ## State -/

/-- What each channel still has to deliver before it is closed. -/
structure Chans where
  SubscribeEventChan : List SubscribeEvent
  UplinkFrameChan : List UplinkFrame
  GatewayStatsChan : List GatewayStats
  DownlinkTXAckChan : List DownlinkTXAck
  RawPacketForwarderEventChan : List RawPacketForwarderEvent
  DownlinkFrameChan : List DownlinkFrame
  GatewayConfigurationChan : List GatewayConfiguration
  RawPacketForwarderChan : List RawPacketForwarderCommand
  deriving DecidableEq, Repr

/-- A goroutine spawned by a relay loop for one received item, not yet run. -/
inductive Task where
  | uplinkFrame (v : UplinkFrame)
  | stats (v : GatewayStats)
  | txAck (v : DownlinkTXAck)
  | rawEvent (v : RawPacketForwarderEvent)
  | downlinkFrame (v : DownlinkFrame)
  | gatewayConfig (v : GatewayConfiguration)
  | rawCommand (v : RawPacketForwarderCommand)
  deriving DecidableEq, Repr

/-- The state of the process. -/
structure State where
  trace : List Ev
  alwaysSubscribe : List EUI64
  running : List Loop
  tasks : List Task
  chans : Chans
  crashed : Bool
  deriving DecidableEq, Repr

/-- Append one observable event to the trace. -/
def State.emit (s : State) (e : Ev) : State := { s with trace := s.trace ++ [e] }

/-- An unrecovered run-time fault: the process dies. -/
def State.fault (s : State) (msg : String) : State :=
  { s with trace := s.trace ++ [Ev.fault msg], crashed := true }

/-- The statement `go f(x)`: the goroutine is created and waits to be scheduled. -/
def State.spawn (s : State) (t : Task) : State := { s with tasks := s.tasks ++ [t] }

/-- The statement `go l()` of `Setup`: loop `l` is started. -/
def State.start (s : State) (l : Loop) : State :=
  { s with trace := s.trace ++ [Ev.go l], running := s.running ++ [l] }

/-- The pattern `if err := call; err != nil { log ... }`: the call is made, and when it
answers an error one entry is logged. -/
def State.perform (s : State) (w : World) (c : Call) (entry : Error → LogEntry) : State :=
  match w.invoke s.trace c with
  | none => s.emit (Ev.call c none)
  | some err => (s.emit (Ev.call c (some err))).emit (Ev.log (entry err))

/-! ## Setup -/

/-- One entry of `conf.Backend.SemtechUDP.Configuration`. -/
structure GatewayConfig where
  GatewayID : String
  deriving DecidableEq, Repr

/-- The `for _, c := range conf.Backend.SemtechUDP.Configuration` loop of `Setup`; the
result is the error it returns early with, if any. -/
def Setup.subscribe (i : Integration) : List GatewayConfig → State → Option Error × State
  | [], s => (none, s)
  | c :: cs, s =>
    match UnmarshalText c.GatewayID with
    | Except.error err => (some (errors.Wrap err "unmarshal gateway_id error"), s)
    | Except.ok gatewayID =>
      match i.SetGatewaySubscription s.trace true gatewayID with
      | some err =>
        (some (errors.Wrap err "subscribe gateway error"),
          s.emit (Ev.call (Call.SetGatewaySubscription true gatewayID) (some err)))
      | none =>
        Setup.subscribe i cs
          { s.emit (Ev.call (Call.SetGatewaySubscription true gatewayID) none) with
            alwaysSubscribe := s.alwaysSubscribe ++ [gatewayID] }

/-- The eight `go` statements of `Setup`, in their order. -/
def Setup.loops : List Loop :=
  [Loop.gatewaySubscribeLoop, Loop.forwardUplinkFrameLoop, Loop.forwardGatewayStatsLoop,
   Loop.forwardDownlinkTxAckLoop, Loop.forwardDownlinkFrameLoop,
   Loop.forwardGatewayConfigurationLoop, Loop.forwardRawPacketForwarderCommandLoop,
   Loop.forwardRawPacketForwarderEventLoop]

/-- The function `Setup`; `b` and `i` are what `backend.GetBackend()` and
`integration.GetIntegration()` return, `none` for nil. -/
def Setup (b : Option Backend) (i : Option Integration) (conf : List GatewayConfig)
    (s : State) : Option Error × State :=
  match b with
  | none => (some (errors.New "backend is not set"), s)
  | some _ =>
    match i with
    | none => (some (errors.New "integration is not set"), s)
    | some i =>
      match Setup.subscribe i conf s with
      | (some err, s1) => (some err, s1)
      | (none, s1) => (none, Setup.loops.foldl State.start s1)

/-! ## The subscription loop

A `for x := range ch` loop is run one iteration at a time: the iteration receives the
next item of the channel, or returns when the channel is closed and drained. -/

/-- The entry logged by `gatewaySubscribeLoop`. -/
def gatewaySubscribeLoop.entry (err : Error) : LogEntry :=
  { err := err, fields := [], msg := "set gateway subscription error" }

/-- One iteration of `gatewaySubscribeLoop`: the call is made by the loop itself. -/
def gatewaySubscribeLoop (w : World) (s : State) : State :=
  match s.chans.SubscribeEventChan with
  | [] => { s with running := s.running.erase Loop.gatewaySubscribeLoop }
  | event :: rest =>
    State.perform { s with chans := { s.chans with SubscribeEventChan := rest } } w
      (Call.SetGatewaySubscription event.Subscribe event.GatewayID)
      gatewaySubscribeLoop.entry

/-! ## Backend to integration -/

/-- The ids that the goroutine of `forwardUplinkFrameLoop` extracts; `none` is the nil
pointer dereference of `uplinkFrame.RxInfo.GatewayId` when `RxInfo` is nil. -/
def forwardUplinkFrameLoop.ids (uplinkFrame : UplinkFrame) : Option (EUI64 × UUID) :=
  match uplinkFrame.RxInfo with
  | none => none
  | some rxInfo => some (copy (zeroBytes 8) rxInfo.GatewayId, copy (zeroBytes 16) rxInfo.UplinkId)

/-- The entry logged by the goroutine of `forwardUplinkFrameLoop`. -/
def forwardUplinkFrameLoop.entry (gatewayID : EUI64) (uplinkID : UUID) (err : Error) :
    LogEntry :=
  { err := err,
    fields := [("gateway_id", FieldValue.eui64 gatewayID),
               ("event_type", FieldValue.eventType EventType.EventUp),
               ("uplink_id", FieldValue.uuid uplinkID)],
    msg := "publish event error" }

/-- The goroutine spawned by `forwardUplinkFrameLoop` for one frame. -/
def forwardUplinkFrameLoop.func (w : World) (uplinkFrame : UplinkFrame) (s : State) : State :=
  match forwardUplinkFrameLoop.ids uplinkFrame with
  | none => s.fault "invalid memory address or nil pointer dereference"
  | some (gatewayID, uplinkID) =>
    s.perform w
      (Call.PublishEvent gatewayID EventType.EventUp uplinkID (Payload.UplinkFrame uplinkFrame))
      (forwardUplinkFrameLoop.entry gatewayID uplinkID)

/-- One iteration of `forwardUplinkFrameLoop`. -/
def forwardUplinkFrameLoop (s : State) : State :=
  match s.chans.UplinkFrameChan with
  | [] => { s with running := s.running.erase Loop.forwardUplinkFrameLoop }
  | uplinkFrame :: rest =>
    State.spawn { s with chans := { s.chans with UplinkFrameChan := rest } }
      (Task.uplinkFrame uplinkFrame)

/-- The ids that the goroutine of `forwardGatewayStatsLoop` extracts. -/
def forwardGatewayStatsLoop.ids (stats : GatewayStats) : EUI64 × UUID :=
  (copy (zeroBytes 8) stats.GatewayId, copy (zeroBytes 16) stats.StatsId)

/-- The entry logged by the goroutine of `forwardGatewayStatsLoop`. -/
def forwardGatewayStatsLoop.entry (gatewayID : EUI64) (statsID : UUID) (err : Error) :
    LogEntry :=
  { err := err,
    fields := [("gateway_id", FieldValue.eui64 gatewayID),
               ("event_type", FieldValue.eventType EventType.EventStats),
               ("stats_id", FieldValue.uuid statsID)],
    msg := "publish event error" }

/-- The goroutine spawned by `forwardGatewayStatsLoop` for one stats message; the
metadata of the message is overwritten by what `metadata.Get()` returns. -/
def forwardGatewayStatsLoop.func (w : World) (stats : GatewayStats) (s : State) : State :=
  let (gatewayID, statsID) := forwardGatewayStatsLoop.ids stats
  let stats := { stats with MetaData := w.metadataGet s.trace }
  s.perform w
    (Call.PublishEvent gatewayID EventType.EventStats statsID (Payload.GatewayStats stats))
    (forwardGatewayStatsLoop.entry gatewayID statsID)

/-- One iteration of `forwardGatewayStatsLoop`. -/
def forwardGatewayStatsLoop (s : State) : State :=
  match s.chans.GatewayStatsChan with
  | [] => { s with running := s.running.erase Loop.forwardGatewayStatsLoop }
  | stats :: rest =>
    State.spawn { s with chans := { s.chans with GatewayStatsChan := rest } } (Task.stats stats)

/-- The ids that the goroutine of `forwardDownlinkTxAckLoop` extracts. -/
def forwardDownlinkTxAckLoop.ids (txAck : DownlinkTXAck) : EUI64 × UUID :=
  (copy (zeroBytes 8) txAck.GatewayId, copy (zeroBytes 16) txAck.DownlinkId)

/-- The entry logged by the goroutine of `forwardDownlinkTxAckLoop`. -/
def forwardDownlinkTxAckLoop.entry (gatewayID : EUI64) (downID : UUID) (err : Error) :
    LogEntry :=
  { err := err,
    fields := [("gateway_id", FieldValue.eui64 gatewayID),
               ("event_type", FieldValue.eventType EventType.EventAck),
               ("downlink_id", FieldValue.uuid downID)],
    msg := "publish event error" }

/-- The goroutine spawned by `forwardDownlinkTxAckLoop` for one acknowledgement. -/
def forwardDownlinkTxAckLoop.func (w : World) (txAck : DownlinkTXAck) (s : State) : State :=
  let (gatewayID, downID) := forwardDownlinkTxAckLoop.ids txAck
  s.perform w
    (Call.PublishEvent gatewayID EventType.EventAck downID (Payload.DownlinkTXAck txAck))
    (forwardDownlinkTxAckLoop.entry gatewayID downID)

/-- One iteration of `forwardDownlinkTxAckLoop`. -/
def forwardDownlinkTxAckLoop (s : State) : State :=
  match s.chans.DownlinkTXAckChan with
  | [] => { s with running := s.running.erase Loop.forwardDownlinkTxAckLoop }
  | txAck :: rest =>
    State.spawn { s with chans := { s.chans with DownlinkTXAckChan := rest } } (Task.txAck txAck)

/-- The ids that the goroutine of `forwardRawPacketForwarderEventLoop` extracts. -/
def forwardRawPacketForwarderEventLoop.ids (raw : RawPacketForwarderEvent) : EUI64 × UUID :=
  (copy (zeroBytes 8) raw.GatewayId, copy (zeroBytes 16) raw.RawId)

/-- The entry logged by the goroutine of `forwardRawPacketForwarderEventLoop`. -/
def forwardRawPacketForwarderEventLoop.entry (gatewayID : EUI64) (rawID : UUID)
    (err : Error) : LogEntry :=
  { err := err,
    fields := [("gateway_id", FieldValue.eui64 gatewayID),
               ("event_type", FieldValue.eventType EventType.EventRaw),
               ("raw_id", FieldValue.uuid rawID)],
    msg := "publish event error" }

/-- The goroutine spawned by `forwardRawPacketForwarderEventLoop` for one raw event. -/
def forwardRawPacketForwarderEventLoop.func (w : World) (raw : RawPacketForwarderEvent)
    (s : State) : State :=
  let (gatewayID, rawID) := forwardRawPacketForwarderEventLoop.ids raw
  s.perform w
    (Call.PublishEvent gatewayID EventType.EventRaw rawID (Payload.RawPacketForwarderEvent raw))
    (forwardRawPacketForwarderEventLoop.entry gatewayID rawID)

/-- One iteration of `forwardRawPacketForwarderEventLoop`. -/
def forwardRawPacketForwarderEventLoop (s : State) : State :=
  match s.chans.RawPacketForwarderEventChan with
  | [] => { s with running := s.running.erase Loop.forwardRawPacketForwarderEventLoop }
  | raw :: rest =>
    State.spawn { s with chans := { s.chans with RawPacketForwarderEventChan := rest } }
      (Task.rawEvent raw)

/-! ## Integration to backend -/

/-- The entry logged by the goroutine of `forwardDownlinkFrameLoop`. -/
def forwardDownlinkFrameLoop.entry (err : Error) : LogEntry :=
  { err := err, fields := [], msg := "send downlink frame error" }

/-- The goroutine spawned by `forwardDownlinkFrameLoop` for one frame. -/
def forwardDownlinkFrameLoop.func (w : World) (downlinkFrame : DownlinkFrame) (s : State) :
    State :=
  s.perform w (Call.SendDownlinkFrame downlinkFrame) forwardDownlinkFrameLoop.entry

/-- One iteration of `forwardDownlinkFrameLoop`. -/
def forwardDownlinkFrameLoop (s : State) : State :=
  match s.chans.DownlinkFrameChan with
  | [] => { s with running := s.running.erase Loop.forwardDownlinkFrameLoop }
  | downlinkFrame :: rest =>
    State.spawn { s with chans := { s.chans with DownlinkFrameChan := rest } }
      (Task.downlinkFrame downlinkFrame)

/-- The entry logged by the goroutine of `forwardGatewayConfigurationLoop`. -/
def forwardGatewayConfigurationLoop.entry (err : Error) : LogEntry :=
  { err := err, fields := [], msg := "apply gateway-configuration error" }

/-- The goroutine spawned by `forwardGatewayConfigurationLoop` for one configuration. -/
def forwardGatewayConfigurationLoop.func (w : World) (gatewayConfig : GatewayConfiguration)
    (s : State) : State :=
  s.perform w (Call.ApplyConfiguration gatewayConfig) forwardGatewayConfigurationLoop.entry

/-- One iteration of `forwardGatewayConfigurationLoop`. -/
def forwardGatewayConfigurationLoop (s : State) : State :=
  match s.chans.GatewayConfigurationChan with
  | [] => { s with running := s.running.erase Loop.forwardGatewayConfigurationLoop }
  | gatewayConfig :: rest =>
    State.spawn { s with chans := { s.chans with GatewayConfigurationChan := rest } }
      (Task.gatewayConfig gatewayConfig)

/-- The entry logged by the goroutine of `forwardRawPacketForwarderCommandLoop`. -/
def forwardRawPacketForwarderCommandLoop.entry (err : Error) : LogEntry :=
  { err := err, fields := [], msg := "raw packet-forwarder command error" }

/-- The goroutine spawned by `forwardRawPacketForwarderCommandLoop` for one command. -/
def forwardRawPacketForwarderCommandLoop.func (w : World) (raw : RawPacketForwarderCommand)
    (s : State) : State :=
  s.perform w (Call.RawPacketForwarderCommand raw) forwardRawPacketForwarderCommandLoop.entry

/-- One iteration of `forwardRawPacketForwarderCommandLoop`. -/
def forwardRawPacketForwarderCommandLoop (s : State) : State :=
  match s.chans.RawPacketForwarderChan with
  | [] => { s with running := s.running.erase Loop.forwardRawPacketForwarderCommandLoop }
  | raw :: rest =>
    State.spawn { s with chans := { s.chans with RawPacketForwarderChan := rest } }
      (Task.rawCommand raw)

/-! ## Scheduling -/

/-- One iteration of loop `l`. -/
def iterate (w : World) (l : Loop) (s : State) : State :=
  match l with
  | Loop.gatewaySubscribeLoop => gatewaySubscribeLoop w s
  | Loop.forwardUplinkFrameLoop => forwardUplinkFrameLoop s
  | Loop.forwardGatewayStatsLoop => forwardGatewayStatsLoop s
  | Loop.forwardDownlinkTxAckLoop => forwardDownlinkTxAckLoop s
  | Loop.forwardDownlinkFrameLoop => forwardDownlinkFrameLoop s
  | Loop.forwardGatewayConfigurationLoop => forwardGatewayConfigurationLoop s
  | Loop.forwardRawPacketForwarderCommandLoop => forwardRawPacketForwarderCommandLoop s
  | Loop.forwardRawPacketForwarderEventLoop => forwardRawPacketForwarderEventLoop s

/-- The body of a spawned goroutine. -/
def Task.run (w : World) (t : Task) (s : State) : State :=
  match t with
  | Task.uplinkFrame v => forwardUplinkFrameLoop.func w v s
  | Task.stats v => forwardGatewayStatsLoop.func w v s
  | Task.txAck v => forwardDownlinkTxAckLoop.func w v s
  | Task.rawEvent v => forwardRawPacketForwarderEventLoop.func w v s
  | Task.downlinkFrame v => forwardDownlinkFrameLoop.func w v s
  | Task.gatewayConfig v => forwardGatewayConfigurationLoop.func w v s
  | Task.rawCommand v => forwardRawPacketForwarderCommandLoop.func w v s

/-- What the scheduler lets happen next: a loop makes one iteration, or the `k`-th waiting
goroutine runs. -/
inductive Choice where
  | recv (l : Loop)
  | run (k : Nat)
  deriving DecidableEq, Repr

/-- One scheduling step.  Nothing happens once the process has died, when the chosen loop
is not running or when there is no `k`-th goroutine. -/
def step (w : World) (s : State) (c : Choice) : State :=
  if s.crashed then s
  else
    match c with
    | Choice.recv l => if l ∈ s.running then iterate w l s else s
    | Choice.run k =>
      match s.tasks.get? k with
      | none => s
      | some t => t.run w { s with tasks := s.tasks.eraseIdx k }

/-- The state reached by following a schedule. -/
def exec (w : World) (s : State) (sched : List Choice) : State := sched.foldl (step w) s

/-- Nothing is left to do: every channel is drained and no goroutine waits. -/
def State.quiescent (s : State) : Prop :=
  s.tasks = [] ∧ s.chans = ⟨[], [], [], [], [], [], [], []⟩

instance (s : State) : Decidable s.quiescent := by
  unfold State.quiescent; exact inferInstance

/-! ## Vocabulary of the statements -/

/-- The gateway id bytes embedded in an event; `none` when an uplink frame has no
`RxInfo` to hold them. -/
def Payload.gatewayIdField : Payload → Option (List Byte)
  | Payload.UplinkFrame v => v.RxInfo.map UplinkRXInfo.GatewayId
  | Payload.GatewayStats v => some v.GatewayId
  | Payload.DownlinkTXAck v => some v.GatewayId
  | Payload.RawPacketForwarderEvent v => some v.GatewayId

/-- The correlation id bytes embedded in an event: `uplink_id`, `stats_id`, `downlink_id`
or `raw_id`. -/
def Payload.idField : Payload → Option (List Byte)
  | Payload.UplinkFrame v => v.RxInfo.map UplinkRXInfo.UplinkId
  | Payload.GatewayStats v => some v.StatsId
  | Payload.DownlinkTXAck v => some v.DownlinkId
  | Payload.RawPacketForwarderEvent v => some v.RawId

/-- The id extraction of the goroutine that handles the event. -/
def Payload.ids : Payload → Option (EUI64 × UUID)
  | Payload.UplinkFrame v => forwardUplinkFrameLoop.ids v
  | Payload.GatewayStats v => some (forwardGatewayStatsLoop.ids v)
  | Payload.DownlinkTXAck v => some (forwardDownlinkTxAckLoop.ids v)
  | Payload.RawPacketForwarderEvent v => some (forwardRawPacketForwarderEventLoop.ids v)

/-- The goroutine that a relay loop spawns for the event. -/
def Payload.task : Payload → Task
  | Payload.UplinkFrame v => Task.uplinkFrame v
  | Payload.GatewayStats v => Task.stats v
  | Payload.DownlinkTXAck v => Task.txAck v
  | Payload.RawPacketForwarderEvent v => Task.rawEvent v

/-- The event kind under which the event is published. -/
def Payload.kind : Payload → EventType
  | Payload.UplinkFrame _ => EventType.EventUp
  | Payload.GatewayStats _ => EventType.EventStats
  | Payload.DownlinkTXAck _ => EventType.EventAck
  | Payload.RawPacketForwarderEvent _ => EventType.EventRaw

/-- The endpoint calls of a trace, in order. -/
def callsOf : List Ev → List Call
  | [] => []
  | Ev.call c _ :: es => c :: callsOf es
  | _ :: es => callsOf es

/-- The error log entries of a trace, in order. -/
def logsOf : List Ev → List LogEntry
  | [] => []
  | Ev.log entry :: es => entry :: logsOf es
  | _ :: es => logsOf es

/-- The gateway ids of the configuration entries that parse, in configuration order. -/
def gatewayIDs (conf : List GatewayConfig) : List EUI64 :=
  conf.filterMap fun c =>
    match UnmarshalText c.GatewayID with
    | Except.ok gatewayID => some gatewayID
    | Except.error _ => none

/-- The trace event of a `SetGatewaySubscription(true, id)` call that succeeds. -/
def subscribed (gatewayID : EUI64) : Ev :=
  Ev.call (Call.SetGatewaySubscription true gatewayID) none

/-- The events that `Setup` adds to the trace. -/
def Setup.events (b : Option Backend) (i : Option Integration) (conf : List GatewayConfig)
    (s : State) : List Ev :=
  (Setup b i conf s).2.trace.drop s.trace.length

/-- The call that the goroutine of an item makes when `metadata.Get()` returns `md`;
`none` when the goroutine faults before it calls anything. -/
def Task.call (md : MetaData) : Task → Option Call
  | Task.uplinkFrame v =>
    (forwardUplinkFrameLoop.ids v).map fun p =>
      Call.PublishEvent p.1 EventType.EventUp p.2 (Payload.UplinkFrame v)
  | Task.stats v =>
    some (Call.PublishEvent (forwardGatewayStatsLoop.ids v).1 EventType.EventStats
      (forwardGatewayStatsLoop.ids v).2 (Payload.GatewayStats { v with MetaData := md }))
  | Task.txAck v =>
    some (Call.PublishEvent (forwardDownlinkTxAckLoop.ids v).1 EventType.EventAck
      (forwardDownlinkTxAckLoop.ids v).2 (Payload.DownlinkTXAck v))
  | Task.rawEvent v =>
    some (Call.PublishEvent (forwardRawPacketForwarderEventLoop.ids v).1 EventType.EventRaw
      (forwardRawPacketForwarderEventLoop.ids v).2 (Payload.RawPacketForwarderEvent v))
  | Task.downlinkFrame v => some (Call.SendDownlinkFrame v)
  | Task.gatewayConfig v => some (Call.ApplyConfiguration v)
  | Task.rawCommand v => some (Call.RawPacketForwarderCommand v)

/-- The log key under which a publish failure of the kind carries the correlation id. -/
def EventType.idKey : EventType → String
  | EventType.EventUp => "uplink_id"
  | EventType.EventStats => "stats_id"
  | EventType.EventAck => "downlink_id"
  | EventType.EventRaw => "raw_id"

/-- The error log entry that goes with a failed call: for a publish failure the error,
the gateway id, the event kind and the correlation id under the key of the kind; for every
other call the error alone. -/
def Call.entry : Call → Error → LogEntry
  | Call.SetGatewaySubscription _ _, err =>
    { err := err, fields := [], msg := "set gateway subscription error" }
  | Call.PublishEvent gatewayID event id _, err =>
    { err := err,
      fields := [("gateway_id", FieldValue.eui64 gatewayID),
                 ("event_type", FieldValue.eventType event),
                 (event.idKey, FieldValue.uuid id)],
      msg := "publish event error" }
  | Call.SendDownlinkFrame _, err =>
    { err := err, fields := [], msg := "send downlink frame error" }
  | Call.ApplyConfiguration _, err =>
    { err := err, fields := [], msg := "apply gateway-configuration error" }
  | Call.RawPacketForwarderCommand _, err =>
    { err := err, fields := [], msg := "raw packet-forwarder command error" }

/-- The entries that go with the failed calls of a trace, in order. -/
def failures : List Ev → List LogEntry
  | [] => []
  | Ev.call c (some err) :: es => c.entry err :: failures es
  | _ :: es => failures es

/-- Whether the call publishes a stats message. -/
def Call.isStats : Call → Bool
  | Call.PublishEvent _ _ _ (Payload.GatewayStats _) => true
  | _ => false

/-- The call with the metadata of a stats payload erased; other calls are unchanged. -/
def Call.strip : Call → Call
  | Call.PublishEvent gatewayID event id (Payload.GatewayStats v) =>
    Call.PublishEvent gatewayID event id (Payload.GatewayStats { v with MetaData := [] })
  | c => c

/-- The `SetGatewaySubscription` call that answers a subscription intent. -/
def intent (event : SubscribeEvent) : Call :=
  Call.SetGatewaySubscription event.Subscribe event.GatewayID

/-- Whether the call is a `SetGatewaySubscription` call. -/
def Call.isSubscription : Call → Bool
  | Call.SetGatewaySubscription _ _ => true
  | _ => false

/-- The `SetGatewaySubscription` calls of a trace, in order. -/
def subscriptionCalls (trace : List Ev) : List Call :=
  (callsOf trace).filter Call.isSubscription

/-- The items that still wait for their call: the spawned goroutines and what the
channels of the seven relay loops have not delivered yet. -/
def State.pending (s : State) : List Task :=
  s.tasks ++ (s.chans.UplinkFrameChan.map Task.uplinkFrame ++
    (s.chans.GatewayStatsChan.map Task.stats ++
    (s.chans.DownlinkTXAckChan.map Task.txAck ++
    (s.chans.RawPacketForwarderEventChan.map Task.rawEvent ++
    (s.chans.DownlinkFrameChan.map Task.downlinkFrame ++
    (s.chans.GatewayConfigurationChan.map Task.gatewayConfig ++
     s.chans.RawPacketForwarderChan.map Task.rawCommand))))))

/-- The calls still to be made: one per subscription intent not received yet and one per
pending item whose goroutine does not fault (stats metadata left empty). -/
def State.owed (s : State) : List Call :=
  s.chans.SubscribeEventChan.map intent ++ s.pending.filterMap (Task.call [])

/-- The part of the state that decides what is received, spawned and run. -/
def State.control (s : State) : List EUI64 × List Loop × List Task × Chans × Bool :=
  (s.alwaysSubscribe, s.running, s.tasks, s.chans, s.crashed)

/-- The calls made so far, stats metadata erased, together with the calls still owed. -/
def State.ledger (s : State) : List Call :=
  (callsOf s.trace).map Call.strip ++ s.owed

/-- What a step adds to the trace: nothing, a fault, or one call followed by the log
entry of its failure when it fails. -/
inductive Added : World → List Ev → List Ev → Prop where
  | nothing (w : World) (tr : List Ev) : Added w tr []
  | fault (w : World) (tr : List Ev) (msg : String) : Added w tr [Ev.fault msg]
  | success (w : World) (tr : List Ev) (c : Call) (h : w.invoke tr c = none) :
      Added w tr [Ev.call c none]
  | failure (w : World) (tr : List Ev) (c : Call) (err : Error)
      (h : w.invoke tr c = some err) :
      Added w tr [Ev.call c (some err), Ev.log (c.entry err)]

/-- A trace made of steps: every call is answered as the endpoint answers at that point,
a failed call is immediately followed by its log entry, and there is no other entry. -/
inductive Steps (w : World) : List Ev → List Ev → Prop where
  | done (tr : List Ev) : Steps w tr []
  | more (tr δ rest : List Ev) (h : Added w tr δ) (hrest : Steps w (tr ++ δ) rest) :
      Steps w tr (δ ++ rest)

/-- The call (stats metadata erased) that a scheduling step makes from a state: the call
of the received subscription intent, the call of the goroutine that runs, or none.  The
endpoints and their answers play no part in it. -/
def State.next (s : State) (ch : Choice) : List Call :=
  if s.crashed then []
  else
    match ch with
    | Choice.recv l =>
      if l ∈ s.running then
        match l, s.chans.SubscribeEventChan with
        | Loop.gatewaySubscribeLoop, event :: _ => [intent event]
        | _, _ => []
      else []
    | Choice.run k =>
      match s.tasks.get? k with
      | none => []
      | some t => (t.call []).toList

/-- The subscription intent that a scheduling step receives from a state, if any. -/
def State.received (s : State) (ch : Choice) : List SubscribeEvent :=
  if s.crashed then []
  else
    match ch with
    | Choice.recv l =>
      if l ∈ s.running then
        match l, s.chans.SubscribeEventChan with
        | Loop.gatewaySubscribeLoop, event :: _ => [event]
        | _, _ => []
      else []
    | Choice.run _ => []

/-- The work left: every undelivered channel item counts twice (it has to be received,
and then handled), every waiting goroutine once. -/
def State.size (s : State) : Nat :=
  2 * (s.chans.SubscribeEventChan.length + s.chans.UplinkFrameChan.length +
    s.chans.GatewayStatsChan.length + s.chans.DownlinkTXAckChan.length +
    s.chans.RawPacketForwarderEventChan.length + s.chans.DownlinkFrameChan.length +
    s.chans.GatewayConfigurationChan.length + s.chans.RawPacketForwarderChan.length) +
  s.tasks.length

/-- The process is alive, the eight loops run, and no pending item is an uplink frame
whose goroutine would fault. -/
def State.healthy (s : State) : Prop :=
  s.crashed = false ∧ (∀ l ∈ Setup.loops, l ∈ s.running) ∧
    ∀ t ∈ s.pending, (t.call []).isSome = true

instance (s : State) : Decidable s.healthy := by
  unfold State.healthy; exact inferInstance

/-- The first `min (len src) n` bytes of `src`, followed by zero bytes up to `n`. -/
def padTrunc (n : Nat) (src : List Byte) : List Byte :=
  src.take (min src.length n) ++ List.replicate (n - min src.length n) 0

/-! ## Concrete inputs -/

/-- The state of a process that has not done anything yet. -/
def State.init (chans : Chans) : State :=
  { trace := [], alwaysSubscribe := [], running := [], tasks := [], chans := chans,
    crashed := false }

/-- Channels that deliver nothing. -/
def Chans.empty : Chans := ⟨[], [], [], [], [], [], [], []⟩

/-- A backend whose calls all succeed. -/
def okBackend : Backend :=
  { SendDownlinkFrame := fun _ _ => none,
    ApplyConfiguration := fun _ _ => none,
    RawPacketForwarderCommand := fun _ _ => none }

/-- An integration whose calls all succeed. -/
def okIntegration : Integration :=
  { SetGatewaySubscription := fun _ _ _ => none,
    PublishEvent := fun _ _ _ _ _ => none }

/-- An integration whose calls all fail with `err`. -/
def failingIntegration (err : Error) : Integration :=
  { SetGatewaySubscription := fun _ _ _ => some err,
    PublishEvent := fun _ _ _ _ _ => some err }

/-- The gateway id `0102030405060708`. -/
def gw01 : EUI64 := ⟨[1, 2, 3, 4, 5, 6, 7, 8], rfl⟩

/-- A correlation id of 16 bytes. -/
def id01 : UUID := ⟨[1, 2, 3, 4, 5, 6, 7, 8, 9, 10, 11, 12, 13, 14, 15, 16], rfl⟩

/-- A startup configuration that lists gateway `0102030405060708` once. -/
def confOnce : List GatewayConfig := [⟨"0102030405060708"⟩]

/-- A startup configuration that lists gateway `0102030405060708` twice. -/
def confTwice : List GatewayConfig := [⟨"0102030405060708"⟩, ⟨"0102030405060708"⟩]

/-- A world in which every call succeeds and the metadata provider returns nothing. -/
def emptyWorld : World :=
  { b := okBackend, i := okIntegration, metadataGet := fun _ => [] }

/-- A world in which every call fails with `err`. -/
def failingWorld (err : Error) : World :=
  { b := { SendDownlinkFrame := fun _ _ => some err,
           ApplyConfiguration := fun _ _ => some err,
           RawPacketForwarderCommand := fun _ _ => some err },
    i := failingIntegration err,
    metadataGet := fun _ => [("region", "eu868")] }

/-- An uplink frame received from gateway `0102030405060708`. -/
def frame01 : UplinkFrame :=
  { PhyPayload := [64, 1], TxInfo := none,
    RxInfo := some { GatewayId := gw01.val, UplinkId := id01.val, rest := [] } }

/-- A downlink frame for gateway `0102030405060708`. -/
def down01 : DownlinkFrame := { GatewayId := gw01.val, DownlinkId := id01.val, rest := [7] }

/-- A stats message of gateway `0102030405060708` that carries metadata of its own. -/
def stats01 : GatewayStats :=
  { GatewayId := gw01.val, StatsId := id01.val, MetaData := [("k", "v")], rest := [] }

/-- An acknowledgement of gateway `0102030405060708`. -/
def ack01 : DownlinkTXAck := { GatewayId := gw01.val, DownlinkId := id01.val, rest := [] }

/-- Channels that deliver one uplink frame and one downlink frame. -/
def chansUpDown : Chans :=
  { Chans.empty with UplinkFrameChan := [frame01], DownlinkFrameChan := [down01] }

/-- Channels that deliver two subscription intents. -/
def chansIntents : Chans :=
  { Chans.empty with SubscribeEventChan := [⟨true, gw01⟩, ⟨false, gw01⟩] }

/-- The state right after a successful `Setup`, with the given channels. -/
def State.afterSetup (chans : Chans) : State :=
  (Setup (some okBackend) (some okIntegration) confOnce (State.init chans)).2

/-- A schedule that receives the uplink frame and the downlink frame, runs both
goroutines, and lets the two loops see their channels closed. -/
def schedUpDown : List Choice :=
  [Choice.recv Loop.forwardUplinkFrameLoop, Choice.recv Loop.forwardDownlinkFrameLoop,
   Choice.run 1, Choice.run 0, Choice.recv Loop.forwardUplinkFrameLoop]

/-- An uplink frame whose `RxInfo` is nil. -/
def nilFrame : UplinkFrame := { PhyPayload := [64, 1], TxInfo := none, RxInfo := none }

/-- An uplink frame whose gateway id holds 3 bytes and whose uplink id holds 1 byte. -/
def shortFrame : UplinkFrame :=
  { PhyPayload := [64, 1], TxInfo := none,
    RxInfo := some { GatewayId := [1, 2, 3], UplinkId := [9], rest := [] } }

/-- The gateway id `[1, 2, 3]` padded with zero bytes to 8 bytes. -/
def gwShort : EUI64 := ⟨[1, 2, 3, 0, 0, 0, 0, 0], rfl⟩

/-- The correlation id `[9]` padded with zero bytes to 16 bytes. -/
def idShort : UUID := ⟨[9, 0, 0, 0, 0, 0, 0, 0, 0, 0, 0, 0, 0, 0, 0, 0], rfl⟩

/-- Channels that deliver one uplink frame without `RxInfo` and one acknowledgement. -/
def chansNilAck : Chans :=
  { Chans.empty with UplinkFrameChan := [nilFrame], DownlinkTXAckChan := [ack01] }

/-- A schedule that receives the uplink frame and the acknowledgement and then lets the
goroutine of the frame run, followed by two attempts to run the goroutine of the
acknowledgement. -/
def schedNilAck : List Choice :=
  [Choice.recv Loop.forwardUplinkFrameLoop, Choice.recv Loop.forwardDownlinkTxAckLoop,
   Choice.run 0, Choice.run 0, Choice.run 0]

/-- A stats message whose id fields are shorter than the arrays they are copied into. -/
def shortStats : GatewayStats :=
  { GatewayId := [1, 2, 3], StatsId := [9], MetaData := [], rest := [] }

/-! ## Id extraction -/

theorem copy_zeroBytes_val (n : Nat) (src : List Byte) :
    (copy (zeroBytes n) src).val = padTrunc n src := by
  simp only [copy, zeroBytes, padTrunc, List.drop_replicate]
  by_cases h : src.length ≤ n
  · rw [Nat.min_eq_left h, List.take_of_length_le h, List.take_of_length_le (le_refl _)]
  · have h2 : n ≤ src.length := by omega
    rw [Nat.min_eq_right h2]
    have h3 : n - src.length = 0 := by omega
    simp [h3]

theorem copy_zeroBytes_exact (n : Nat) (src : FixedBytes n) :
    copy (zeroBytes n) src.val = src := by
  apply Subtype.ext
  have h := src.property
  rw [copy_zeroBytes_val, padTrunc, h, Nat.min_self, Nat.sub_self, List.replicate_zero,
    List.append_nil]
  exact List.take_of_length_le (le_of_eq h)

theorem callsOf_append (xs ys : List Ev) : callsOf (xs ++ ys) = callsOf xs ++ callsOf ys := by
  induction xs with
  | nil => rfl
  | cons e es ih => cases e <;> simp [callsOf, ih]

theorem logsOf_append (xs ys : List Ev) : logsOf (xs ++ ys) = logsOf xs ++ logsOf ys := by
  induction xs with
  | nil => rfl
  | cons e es ih => cases e <;> simp [logsOf, ih]

theorem perform_crashed (s : State) (w : World) (c : Call) (entry : Error → LogEntry) :
    (s.perform w c entry).crashed = s.crashed := by
  unfold State.perform
  cases w.invoke s.trace c <;> rfl

theorem perform_tasks (s : State) (w : World) (c : Call) (entry : Error → LogEntry) :
    (s.perform w c entry).tasks = s.tasks := by
  unfold State.perform
  cases w.invoke s.trace c <;> rfl

theorem perform_chans (s : State) (w : World) (c : Call) (entry : Error → LogEntry) :
    (s.perform w c entry).chans = s.chans := by
  unfold State.perform
  cases w.invoke s.trace c <;> rfl

theorem perform_running (s : State) (w : World) (c : Call) (entry : Error → LogEntry) :
    (s.perform w c entry).running = s.running := by
  unfold State.perform
  cases w.invoke s.trace c <;> rfl

theorem perform_alwaysSubscribe (s : State) (w : World) (c : Call)
    (entry : Error → LogEntry) :
    (s.perform w c entry).alwaysSubscribe = s.alwaysSubscribe := by
  unfold State.perform
  cases w.invoke s.trace c <;> rfl

theorem callsOf_perform (s : State) (w : World) (c : Call) (entry : Error → LogEntry) :
    callsOf (s.perform w c entry).trace = callsOf s.trace ++ [c] := by
  unfold State.perform
  cases w.invoke s.trace c <;> simp [State.emit, callsOf_append, callsOf]

/-- C10: id extraction faults exactly for an uplink frame without `RxInfo` (and then the
goroutine kills the process); in every other case, whatever the lengths of the id fields,
the gateway id is the first `min len 8` bytes of the gateway id field padded with zero
bytes to 8, and the correlation id the first `min len 16` bytes of the id field padded
with zero bytes to 16. -/
theorem ids_fault_iff_and_padTrunc (e : Payload) :
    (e.ids = none ↔ ∃ v, e = Payload.UplinkFrame v ∧ v.RxInfo = none) ∧
    (∀ (w : World) (s : State), s.crashed = false →
      ((e.task.run w s).crashed = true ↔ ∃ v, e = Payload.UplinkFrame v ∧ v.RxInfo = none)) ∧
    (∀ gw id : List Byte, e.gatewayIdField = some gw → e.idField = some id →
      e.ids.map (fun p => (p.1.val, p.2.val)) =
        some (gw.take (min gw.length 8) ++ List.replicate (8 - min gw.length 8) 0,
              id.take (min id.length 16) ++ List.replicate (16 - min id.length 16) 0)) := by
  cases e with
  | UplinkFrame v =>
    obtain ⟨phy, tx, rx⟩ := v
    cases rx with
    | none =>
      refine ⟨by simp [Payload.ids, forwardUplinkFrameLoop.ids], ?_, ?_⟩
      · intro w s _
        simp [Payload.task, Task.run, forwardUplinkFrameLoop.func, forwardUplinkFrameLoop.ids,
          State.fault]
      · intro gw id h
        simp [Payload.gatewayIdField] at h
    | some rx =>
      refine ⟨by simp [Payload.ids, forwardUplinkFrameLoop.ids], ?_, ?_⟩
      · intro w s hs
        simp [Payload.task, Task.run, forwardUplinkFrameLoop.func, forwardUplinkFrameLoop.ids,
          perform_crashed, hs]
      · intro gw id h1 h2
        simp only [Payload.gatewayIdField, Payload.idField, Option.map_some',
          Option.some.injEq] at h1 h2
        subst h1 h2
        simp only [Payload.ids, forwardUplinkFrameLoop.ids, Option.map_some',
          copy_zeroBytes_val, padTrunc]
  | GatewayStats v =>
    refine ⟨by simp [Payload.ids], ?_, ?_⟩
    · intro w s hs
      simp [Payload.task, Task.run, forwardGatewayStatsLoop.func, forwardGatewayStatsLoop.ids,
        perform_crashed, hs]
    · intro gw id h1 h2
      simp only [Payload.gatewayIdField, Payload.idField, Option.some.injEq] at h1 h2
      subst h1 h2
      simp only [Payload.ids, forwardGatewayStatsLoop.ids, Option.map_some',
        copy_zeroBytes_val, padTrunc]
  | DownlinkTXAck v =>
    refine ⟨by simp [Payload.ids], ?_, ?_⟩
    · intro w s hs
      simp [Payload.task, Task.run, forwardDownlinkTxAckLoop.func,
        forwardDownlinkTxAckLoop.ids, perform_crashed, hs]
    · intro gw id h1 h2
      simp only [Payload.gatewayIdField, Payload.idField, Option.some.injEq] at h1 h2
      subst h1 h2
      simp only [Payload.ids, forwardDownlinkTxAckLoop.ids, Option.map_some',
        copy_zeroBytes_val, padTrunc]
  | RawPacketForwarderEvent v =>
    refine ⟨by simp [Payload.ids], ?_, ?_⟩
    · intro w s hs
      simp [Payload.task, Task.run, forwardRawPacketForwarderEventLoop.func,
        forwardRawPacketForwarderEventLoop.ids, perform_crashed, hs]
    · intro gw id h1 h2
      simp only [Payload.gatewayIdField, Payload.idField, Option.some.injEq] at h1 h2
      subst h1 h2
      simp only [Payload.ids, forwardRawPacketForwarderEventLoop.ids, Option.map_some',
        copy_zeroBytes_val, padTrunc]

/-- Witness of C10: a stats message with a 3-byte gateway id and a 1-byte stats id. -/
theorem ids_fault_iff_and_padTrunc_witness :
    (Payload.GatewayStats shortStats).gatewayIdField = some [1, 2, 3] ∧
    (Payload.GatewayStats shortStats).idField = some [9] ∧
    (Payload.GatewayStats shortStats).ids.map (fun p => (p.1.val, p.2.val)) =
      some ([1, 2, 3, 0, 0, 0, 0, 0], [9, 0, 0, 0, 0, 0, 0, 0, 0, 0, 0, 0, 0, 0, 0, 0]) :=
  ⟨rfl, rfl,
    (ids_fault_iff_and_padTrunc (Payload.GatewayStats shortStats)).2.2 [1, 2, 3] [9] rfl rfl⟩

/-- C2, counterexample: for a stats message whose gateway id field holds 3 bytes and
whose stats id field holds 1 byte, the extracted ids are 8 and 16 bytes long and differ
from the embedded bytes. -/
theorem ids_differ_from_short_fields :
    (Payload.GatewayStats shortStats).gatewayIdField = some [1, 2, 3] ∧
    (Payload.GatewayStats shortStats).idField = some [9] ∧
    (Payload.GatewayStats shortStats).ids.map (fun p => (p.1.val, p.2.val)) =
      some ([1, 2, 3, 0, 0, 0, 0, 0], [9, 0, 0, 0, 0, 0, 0, 0, 0, 0, 0, 0, 0, 0, 0, 0]) ∧
    (Payload.GatewayStats shortStats).ids.map (fun p => (p.1.val, p.2.val)) ≠
      some ([1, 2, 3], [9]) := by
  decide

/-- C2, amended: when the gateway id field of an event holds exactly 8 bytes and its id
field exactly 16 bytes (for an uplink frame, when `RxInfo` is present to hold them), the
ids extracted equal these bytes, and the goroutine makes one `PublishEvent` call with
them, under the kind of the event. -/
theorem ids_equal_exact_fields (e : Payload) (G : EUI64) (U : UUID)
    (hG : e.gatewayIdField = some G.val) (hU : e.idField = some U.val) :
    e.ids = some (G, U) ∧
    ∀ (w : World) (s : State), ∃ v : Payload,
      callsOf (e.task.run w s).trace = callsOf s.trace ++ [Call.PublishEvent G e.kind U v] := by
  cases e with
  | UplinkFrame v =>
    obtain ⟨phy, tx, rx⟩ := v
    cases rx with
    | none => simp [Payload.gatewayIdField] at hG
    | some rx =>
      simp only [Payload.gatewayIdField, Payload.idField, Option.map_some',
        Option.some.injEq] at hG hU
      have h : forwardUplinkFrameLoop.ids ⟨phy, tx, some rx⟩ = some (G, U) := by
        simp only [forwardUplinkFrameLoop.ids, hG, hU, copy_zeroBytes_exact]
      refine ⟨h, fun w s => ?_⟩
      simp only [Payload.task, Task.run, forwardUplinkFrameLoop.func, h, callsOf_perform,
        Payload.kind]
      exact ⟨_, rfl⟩
  | GatewayStats v =>
    simp only [Payload.gatewayIdField, Payload.idField, Option.some.injEq] at hG hU
    have h : forwardGatewayStatsLoop.ids v = (G, U) := by
      simp only [forwardGatewayStatsLoop.ids, hG, hU, copy_zeroBytes_exact]
    refine ⟨by simp only [Payload.ids, h], fun w s => ?_⟩
    simp only [Payload.task, Task.run, forwardGatewayStatsLoop.func, h, callsOf_perform,
      Payload.kind]
    exact ⟨_, rfl⟩
  | DownlinkTXAck v =>
    simp only [Payload.gatewayIdField, Payload.idField, Option.some.injEq] at hG hU
    have h : forwardDownlinkTxAckLoop.ids v = (G, U) := by
      simp only [forwardDownlinkTxAckLoop.ids, hG, hU, copy_zeroBytes_exact]
    refine ⟨by simp only [Payload.ids, h], fun w s => ?_⟩
    simp only [Payload.task, Task.run, forwardDownlinkTxAckLoop.func, h, callsOf_perform,
      Payload.kind]
    exact ⟨_, rfl⟩
  | RawPacketForwarderEvent v =>
    simp only [Payload.gatewayIdField, Payload.idField, Option.some.injEq] at hG hU
    have h : forwardRawPacketForwarderEventLoop.ids v = (G, U) := by
      simp only [forwardRawPacketForwarderEventLoop.ids, hG, hU, copy_zeroBytes_exact]
    refine ⟨by simp only [Payload.ids, h], fun w s => ?_⟩
    simp only [Payload.task, Task.run, forwardRawPacketForwarderEventLoop.func, h,
      callsOf_perform, Payload.kind]
    exact ⟨_, rfl⟩

/-- Witness of C2 as amended: an acknowledgement whose id fields hold 8 and 16 bytes. -/
theorem ids_equal_exact_fields_witness :
    (Payload.DownlinkTXAck ack01).gatewayIdField = some gw01.val ∧
    (Payload.DownlinkTXAck ack01).idField = some id01.val ∧
    (Payload.DownlinkTXAck ack01).ids = some (gw01, id01) :=
  ⟨rfl, rfl, (ids_equal_exact_fields (Payload.DownlinkTXAck ack01) gw01 id01 rfl rfl).1⟩

/-! ## Setup -/

theorem Decode_length : ∀ (l : List Char) (bs : List Byte),
    hex.Decode l = Except.ok bs → bs.length * 2 = l.length
  | [], bs, h => by
    simp only [hex.Decode, Except.ok.injEq] at h
    subst h; rfl
  | [p], bs, h => by
    simp only [hex.Decode] at h
    split at h <;> cases h
  | p :: q :: rest, bs, h => by
    simp only [hex.Decode] at h
    split at h
    · cases h
    · split at h
      · cases h
      · split at h
        · cases h
        · rename_i bs0 hd
          have ih := Decode_length rest bs0 hd
          simp only [Except.ok.injEq] at h
          subst h
          simp only [List.length_cons]
          omega

theorem Decode_ok_of_hex : ∀ (l : List Char),
    (∀ c ∈ l, (hex.fromHexChar c).isSome = true) → l.length % 2 = 0 →
    ∃ bs, hex.Decode l = Except.ok bs
  | [], _, _ => ⟨[], rfl⟩
  | [p], _, h => by simp at h
  | p :: q :: rest, hall, hlen => by
    have hp := hall p (by simp)
    have hq := hall q (by simp)
    have hr : ∀ c ∈ rest, (hex.fromHexChar c).isSome = true :=
      fun c hc => hall c (by simp [hc])
    have hl : rest.length % 2 = 0 := by
      simp only [List.length_cons] at hlen
      omega
    obtain ⟨bs, hbs⟩ := Decode_ok_of_hex rest hr hl
    obtain ⟨a, ha⟩ := Option.isSome_iff_exists.mp hp
    obtain ⟨b, hb⟩ := Option.isSome_iff_exists.mp hq
    simp only [hex.Decode, ha, hb, hbs]
    exact ⟨_, rfl⟩

theorem hex_of_Decode_ok : ∀ (l : List Char) (bs : List Byte),
    hex.Decode l = Except.ok bs → ∀ c ∈ l, (hex.fromHexChar c).isSome = true
  | [], _, _ => by simp
  | [p], bs, h => by
    simp only [hex.Decode] at h
    split at h <;> cases h
  | p :: q :: rest, bs, h => by
    simp only [hex.Decode] at h
    split at h
    · cases h
    · rename_i a ha
      split at h
      · cases h
      · rename_i b hb
        split at h
        · cases h
        · rename_i bs0 hd
          have ih := hex_of_Decode_ok rest bs0 hd
          intro c hc
          simp only [List.mem_cons] at hc
          rcases hc with hc | hc | hc
          · simp [hc, ha]
          · simp [hc, hb]
          · exact ih c hc

/-- The parser accepts exactly the hex-encoded 8-byte identifiers. -/
theorem UnmarshalText_ok_iff (text : String) :
    (∃ gatewayID, UnmarshalText text = Except.ok gatewayID) ↔ IsHexEUI64 text := by
  unfold UnmarshalText IsHexEUI64 hex.DecodeString
  constructor
  · rintro ⟨g, hg⟩
    split at hg
    · cases hg
    · rename_i b hb
      split at hg
      · rename_i h8
        have hl := Decode_length _ _ hb
        exact ⟨by omega, hex_of_Decode_ok _ _ hb⟩
      · cases hg
  · rintro ⟨hlen, hall⟩
    obtain ⟨bs, hbs⟩ := Decode_ok_of_hex text.toList hall (by omega)
    have hl := Decode_length _ _ hbs
    have h8 : bs.length = 8 := by omega
    refine ⟨⟨bs, h8⟩, ?_⟩
    simp only [hbs, h8, dite_true]

/-- What the configuration loop of `Setup` does: it only appends to the trace and to
`alwaysSubscribe`; when it completes it has made one successful call per entry, in order;
when it stops early it has made successful calls followed, unless an id was malformed, by
the one failed call whose error it wraps. -/
theorem subscribe_spec (i : Integration) : ∀ (conf : List GatewayConfig) (s : State),
    ∃ δ : List Ev,
      (Setup.subscribe i conf s).2.trace = s.trace ++ δ ∧
      (Setup.subscribe i conf s).2.running = s.running ∧
      (Setup.subscribe i conf s).2.tasks = s.tasks ∧
      (Setup.subscribe i conf s).2.chans = s.chans ∧
      (Setup.subscribe i conf s).2.crashed = s.crashed ∧
      ((Setup.subscribe i conf s).1 = none →
        δ = (gatewayIDs conf).map subscribed ∧
        (Setup.subscribe i conf s).2.alwaysSubscribe = s.alwaysSubscribe ++ gatewayIDs conf ∧
        ∀ c ∈ conf, IsHexEUI64 c.GatewayID) ∧
      (∀ e, (Setup.subscribe i conf s).1 = some e →
        ∃ pre : List EUI64,
          (δ = pre.map subscribed ∧ (∃ c ∈ conf, ¬ IsHexEUI64 c.GatewayID) ∧
            ∃ e0, e = errors.Wrap e0 "unmarshal gateway_id error") ∨
          (∃ id err, δ = pre.map subscribed ++
              [Ev.call (Call.SetGatewaySubscription true id) (some err)] ∧
            e = errors.Wrap err "subscribe gateway error"))
  | [], s => ⟨[], by simp [Setup.subscribe, gatewayIDs]⟩
  | c :: cs, s => by
    cases hu : UnmarshalText c.GatewayID with
    | error err =>
      have hbad : ¬ IsHexEUI64 c.GatewayID := by
        rw [← UnmarshalText_ok_iff]
        rintro ⟨g, hg⟩
        rw [hu] at hg
        cases hg
      refine ⟨[], ?_⟩
      simp only [Setup.subscribe, hu, List.append_nil, true_and]
      refine ⟨by simp, ?_⟩
      intro e he
      simp only [Option.some.injEq] at he
      exact ⟨[], Or.inl ⟨rfl, ⟨c, by simp, hbad⟩, err, he.symm⟩⟩
    | ok gatewayID =>
      have hgood : IsHexEUI64 c.GatewayID := (UnmarshalText_ok_iff _).mp ⟨gatewayID, hu⟩
      have hids : gatewayIDs (c :: cs) = gatewayID :: gatewayIDs cs := by
        simp [gatewayIDs, hu]
      cases hi : i.SetGatewaySubscription s.trace true gatewayID with
      | some err =>
        refine ⟨[Ev.call (Call.SetGatewaySubscription true gatewayID) (some err)], ?_⟩
        simp only [Setup.subscribe, hu, hi, State.emit, true_and]
        refine ⟨by simp, ?_⟩
        intro e he
        simp only [Option.some.injEq] at he
        exact ⟨[], Or.inr ⟨gatewayID, err, rfl, he.symm⟩⟩
      | none =>
        obtain ⟨δ, h1, h2, h3, h4, h5, h6, h7⟩ := subscribe_spec i cs
          { s.emit (Ev.call (Call.SetGatewaySubscription true gatewayID) none) with
            alwaysSubscribe := s.alwaysSubscribe ++ [gatewayID] }
        refine ⟨subscribed gatewayID :: δ, ?_⟩
        simp only [Setup.subscribe, hu, hi]
        refine ⟨?_, h2, h3, h4, h5, ?_, ?_⟩
        · rw [h1]; simp [State.emit, subscribed]
        · intro hn
          obtain ⟨a1, a2, a3⟩ := h6 hn
          refine ⟨by rw [a1, hids]; rfl, by rw [a2, hids]; simp, ?_⟩
          intro c0 hc0
          simp only [List.mem_cons] at hc0
          rcases hc0 with hc0 | hc0
          · rw [hc0]; exact hgood
          · exact a3 c0 hc0
        · intro e he
          obtain ⟨pre, h⟩ := h7 e he
          refine ⟨gatewayID :: pre, ?_⟩
          rcases h with ⟨a1, ⟨c0, hc0, hbad⟩, a3⟩ | ⟨id, err, a1, a2⟩
          · exact Or.inl ⟨by rw [a1]; rfl, ⟨c0, by simp [hc0], hbad⟩, a3⟩
          · exact Or.inr ⟨id, err, by rw [a1]; rfl, a2⟩

theorem foldl_start (s : State) (ls : List Loop) :
    ls.foldl State.start s =
      { s with trace := s.trace ++ ls.map Ev.go, running := s.running ++ ls } := by
  induction ls generalizing s with
  | nil => simp
  | cons l ls ih => rw [List.foldl_cons, ih]; simp [State.start]

theorem callsOf_subscribed (ids : List EUI64) :
    callsOf (ids.map subscribed) = ids.map (Call.SetGatewaySubscription true) := by
  induction ids with
  | nil => rfl
  | cons id ids ih => simp [subscribed, callsOf, ih] at *

theorem callsOf_go (ls : List Loop) : callsOf (ls.map Ev.go) = [] := by
  induction ls with
  | nil => rfl
  | cons l ls ih => simpa [callsOf] using ih

theorem UnmarshalText_of_all_hex : ∀ conf : List GatewayConfig,
    (∀ c ∈ conf, IsHexEUI64 c.GatewayID) →
    conf.map (fun c => UnmarshalText c.GatewayID) = (gatewayIDs conf).map Except.ok
  | [], _ => rfl
  | c :: cs, h => by
    obtain ⟨g, hg⟩ := (UnmarshalText_ok_iff c.GatewayID).mpr (h c (by simp))
    have ih := UnmarshalText_of_all_hex cs (fun c0 hc0 => h c0 (by simp [hc0]))
    simp only [List.map_cons, hg, ih, gatewayIDs, List.filterMap_cons]

/-- What `Setup` does, by cases on its result. -/
theorem Setup_spec (b : Option Backend) (i : Option Integration) (conf : List GatewayConfig)
    (s : State) :
    (Setup b i conf s).2.trace = s.trace ++ Setup.events b i conf s ∧
    ((b = none ∨ i = none) → (Setup b i conf s).1 ≠ none ∧ (Setup b i conf s).2 = s ∧
      Setup.events b i conf s = []) ∧
    ((Setup b i conf s).1 = none →
      b ≠ none ∧ i ≠ none ∧ (∀ c ∈ conf, IsHexEUI64 c.GatewayID) ∧
      Setup.events b i conf s = (gatewayIDs conf).map subscribed ++ Setup.loops.map Ev.go ∧
      (Setup b i conf s).2.running = s.running ++ Setup.loops ∧
      (Setup b i conf s).2.alwaysSubscribe = s.alwaysSubscribe ++ gatewayIDs conf) ∧
    (∀ e, (Setup b i conf s).1 = some e →
      (Setup b i conf s).2.running = s.running ∧
      ∃ pre : List EUI64,
        (Setup.events b i conf s = pre.map subscribed ∧
          (b = none ∨ i = none ∨ ∃ c ∈ conf, ¬ IsHexEUI64 c.GatewayID)) ∨
        (∃ id err, Setup.events b i conf s = pre.map subscribed ++
            [Ev.call (Call.SetGatewaySubscription true id) (some err)] ∧
          e = errors.Wrap err "subscribe gateway error")) := by
  cases b with
  | none =>
    refine ⟨by simp [Setup, Setup.events], fun _ => by simp [Setup, Setup.events],
      by simp [Setup], ?_⟩
    intro e _
    exact ⟨rfl, [], Or.inl ⟨by simp [Setup, Setup.events], Or.inl rfl⟩⟩
  | some b =>
    cases i with
    | none =>
      refine ⟨by simp [Setup, Setup.events], fun _ => by simp [Setup, Setup.events],
        by simp [Setup], ?_⟩
      intro e _
      exact ⟨rfl, [], Or.inl ⟨by simp [Setup, Setup.events], Or.inr (Or.inl rfl)⟩⟩
    | some i =>
      obtain ⟨δ, h1, h2, h3, h4, h5, h6, h7⟩ := subscribe_spec i conf s
      cases hr : Setup.subscribe i conf s with
      | mk r s1 =>
        rw [hr] at h1 h2 h3 h4 h5 h6 h7
        simp only at h1 h2 h3 h4 h5 h6 h7
        cases r with
        | none =>
          obtain ⟨a1, a2, a3⟩ := h6 rfl
          have hev : Setup.events (some b) (some i) conf s =
              (gatewayIDs conf).map subscribed ++ Setup.loops.map Ev.go := by
            simp only [Setup.events, Setup, hr, foldl_start, h1, a1, List.append_assoc,
              List.drop_left]
          refine ⟨?_, by simp, ?_, by simp [Setup, hr]⟩
          · rw [hev]
            simp only [Setup, hr, foldl_start, h1, a1, List.append_assoc]
          · intro _
            refine ⟨by simp, by simp, a3, hev, ?_, ?_⟩
            · simp only [Setup, hr, foldl_start, h2]
            · simp only [Setup, hr, foldl_start, a2]
        | some e =>
          have hev : Setup.events (some b) (some i) conf s = δ := by
            simp only [Setup.events, Setup, hr, h1, List.drop_left]
          refine ⟨?_, by simp, by simp [Setup, hr], ?_⟩
          · rw [hev]
            simp only [Setup, hr, h1]
          · intro e0 he0
            simp only [Setup, hr, Option.some.injEq] at he0
            subst he0
            refine ⟨by simp only [Setup, hr, h2], ?_⟩
            obtain ⟨pre, h⟩ := h7 e rfl
            refine ⟨pre, ?_⟩
            rw [hev]
            rcases h with ⟨a1, a2, _⟩ | ⟨id, err, a1, a2⟩
            · exact Or.inl ⟨a1, Or.inr (Or.inr a2)⟩
            · exact Or.inr ⟨id, err, a1, a2⟩

/-- `Setup` touches neither the waiting goroutines nor the channels, and does not kill
the process. -/
theorem Setup_frame (b : Option Backend) (i : Option Integration) (conf : List GatewayConfig)
    (s : State) :
    (Setup b i conf s).2.tasks = s.tasks ∧ (Setup b i conf s).2.chans = s.chans ∧
    (Setup b i conf s).2.crashed = s.crashed := by
  cases b with
  | none => simp [Setup]
  | some b =>
    cases i with
    | none => simp [Setup]
    | some i =>
      obtain ⟨δ, _, _, h3, h4, h5, _, _⟩ := subscribe_spec i conf s
      cases hr : Setup.subscribe i conf s with
      | mk r s1 =>
        rw [hr] at h3 h4 h5
        simp only at h3 h4 h5
        cases r with
        | none => simp only [Setup, hr, foldl_start, h3, h4, h5, and_self]
        | some e => simp only [Setup, hr, h3, h4, h5, and_self]

theorem go_not_mem_subscribed (l : Loop) (pre : List EUI64) :
    Ev.go l ∉ pre.map subscribed := by
  simp [subscribed]

theorem failed_not_mem_subscribed (c : Call) (err : Error) (pre : List EUI64) :
    Ev.call c (some err) ∉ pre.map subscribed := by
  simp [subscribed]

/-- Every call that the configuration loop of `Setup` records is a
`SetGatewaySubscription(true, id)` call, recorded with the answer that the integration
gives at that point. -/
theorem subscribe_answers (i : Integration) : ∀ (conf : List GatewayConfig) (s : State)
    (δ : List Ev), (Setup.subscribe i conf s).2.trace = s.trace ++ δ →
    ∀ (pre : List Ev) (c : Call) (r : Option Error) (rest : List Ev),
      δ = pre ++ Ev.call c r :: rest →
      ∃ id, c = Call.SetGatewaySubscription true id ∧
        r = i.SetGatewaySubscription (s.trace ++ pre) true id
  | [], s, δ, hδ, pre, c, r, rest, h => by
    simp only [Setup.subscribe] at hδ
    have h0 : δ = [] := by simpa using hδ
    rw [h0] at h
    simp at h
  | c0 :: cs, s, δ, hδ, pre, c, r, rest, h => by
    cases hu : UnmarshalText c0.GatewayID with
    | error err =>
      simp only [Setup.subscribe, hu] at hδ
      have h0 : δ = [] := by simpa using hδ
      rw [h0] at h
      simp at h
    | ok gatewayID =>
      cases hi : i.SetGatewaySubscription s.trace true gatewayID with
      | some err =>
        simp only [Setup.subscribe, hu, hi, State.emit] at hδ
        have h0 : δ = [Ev.call (Call.SetGatewaySubscription true gatewayID) (some err)] :=
          (List.append_cancel_left hδ).symm
        rw [h0] at h
        cases pre with
        | nil =>
          simp only [List.nil_append, List.cons.injEq, Ev.call.injEq] at h
          obtain ⟨⟨h1, h2⟩, _⟩ := h
          exact ⟨gatewayID, h1.symm, by rw [← h2, List.append_nil, hi]⟩
        | cons e pre0 =>
          simp only [List.cons_append, List.cons.injEq] at h
          have h3 := h.2
          simp at h3
      | none =>
        obtain ⟨δ1, h1, _⟩ := subscribe_spec i cs
          { s.emit (Ev.call (Call.SetGatewaySubscription true gatewayID) none) with
            alwaysSubscribe := s.alwaysSubscribe ++ [gatewayID] }
        have ih := subscribe_answers i cs
          { s.emit (Ev.call (Call.SetGatewaySubscription true gatewayID) none) with
            alwaysSubscribe := s.alwaysSubscribe ++ [gatewayID] } δ1 h1
        simp only [Setup.subscribe, hu, hi] at hδ
        rw [h1] at hδ
        simp only [State.emit, List.append_assoc, List.singleton_append] at hδ
        have h0 : δ = Ev.call (Call.SetGatewaySubscription true gatewayID) none :: δ1 :=
          (List.append_cancel_left hδ).symm
        rw [h0] at h
        cases pre with
        | nil =>
          simp only [List.nil_append, List.cons.injEq, Ev.call.injEq] at h
          obtain ⟨⟨h2, h3⟩, _⟩ := h
          exact ⟨gatewayID, h2.symm, by rw [← h3, List.append_nil, hi]⟩
        | cons e pre0 =>
          simp only [List.cons_append, List.cons.injEq] at h
          obtain ⟨h2, h3⟩ := h
          obtain ⟨id, a1, a2⟩ := ih pre0 c r rest h3
          refine ⟨id, a1, ?_⟩
          rw [a2, ← h2]
          simp only [State.emit, List.append_assoc, List.singleton_append]

/-- Every call that `Setup` records is a `SetGatewaySubscription(true, id)` call of the
integration, recorded with the answer that the integration gives at that point. -/
theorem Setup_answers (b : Option Backend) (i0 : Integration) (conf : List GatewayConfig)
    (s : State) (pre : List Ev) (c : Call) (r : Option Error) (rest : List Ev)
    (h : Setup.events b (some i0) conf s = pre ++ Ev.call c r :: rest) :
    ∃ id, c = Call.SetGatewaySubscription true id ∧
      r = i0.SetGatewaySubscription (s.trace ++ pre) true id := by
  cases b with
  | none => simp [Setup, Setup.events] at h
  | some b =>
    obtain ⟨δ, h1, _⟩ := subscribe_spec i0 conf s
    have hans := subscribe_answers i0 conf s δ h1
    cases hr : Setup.subscribe i0 conf s with
    | mk res s1 =>
      rw [hr] at h1
      simp only at h1
      cases res with
      | some e =>
        have hev : Setup.events (some b) (some i0) conf s = δ := by
          simp only [Setup.events, Setup, hr, h1, List.drop_left]
        rw [hev] at h
        exact hans pre c r rest h
      | none =>
        have hev : Setup.events (some b) (some i0) conf s = δ ++ Setup.loops.map Ev.go := by
          simp only [Setup.events, Setup, hr, foldl_start, h1, List.append_assoc,
            List.drop_left]
        rw [hev] at h
        rcases List.append_eq_append_iff.mp h with ⟨a', _, h3⟩ | ⟨c', h2, h3⟩
        · have hmem : Ev.call c r ∈ Setup.loops.map Ev.go := by rw [h3]; simp
          simp at hmem
        · cases c' with
          | nil =>
            have hmem : Ev.call c r ∈ Setup.loops.map Ev.go := by
              simp only [List.nil_append] at h3
              rw [← h3]; simp
            simp at hmem
          | cons y c'' =>
            simp only [List.cons_append, List.cons.injEq] at h3
            rw [← h3.1] at h2
            exact hans pre c r c'' h2

/-- C4: `Setup` returns an error exactly when the backend is missing, the integration is
missing, some configured gateway id is not a hex-encoded 8-byte identifier, or a
`SetGatewaySubscription` call it made failed; whenever it returns an error no loop is
started; in every other case it returns success with the eight loops started, after all
its calls; so there are exactly two outcomes.  When an endpoint is missing it makes no
call at all and leaves the state untouched.  The calls it records are the calls of the
integration, with the answers the integration gives. -/
theorem Setup_two_outcomes (b : Option Backend) (i : Option Integration)
    (conf : List GatewayConfig) (s : State) :
    ((Setup b i conf s).1 ≠ none ↔
      (b = none ∨ i = none ∨ (∃ c ∈ conf, ¬ IsHexEUI64 c.GatewayID) ∨
        ∃ id err, Ev.call (Call.SetGatewaySubscription true id) (some err) ∈
          Setup.events b i conf s)) ∧
    ((Setup b i conf s).1 ≠ none →
      (Setup b i conf s).2.running = s.running ∧ ∀ l, Ev.go l ∉ Setup.events b i conf s) ∧
    (¬ (b = none ∨ i = none ∨ (∃ c ∈ conf, ¬ IsHexEUI64 c.GatewayID) ∨
        ∃ id err, Ev.call (Call.SetGatewaySubscription true id) (some err) ∈
          Setup.events b i conf s) →
      (Setup b i conf s).1 = none ∧
      (Setup b i conf s).2.running = s.running ++ Setup.loops ∧
      Setup.events b i conf s = (gatewayIDs conf).map subscribed ++ Setup.loops.map Ev.go) ∧
    (((Setup b i conf s).1 ≠ none ∧ (Setup b i conf s).2.running = s.running ∧
        ∀ l, Ev.go l ∉ Setup.events b i conf s) ∨
      ((Setup b i conf s).1 = none ∧
        (Setup b i conf s).2.running = s.running ++ Setup.loops)) ∧
    (Setup.loops.length = 8 ∧ Setup.loops.Nodup) ∧
    ((Setup b i conf s).1 = none →
      (Setup b i conf s).2.running = s.running ++ Setup.loops ∧
      Setup.events b i conf s = (gatewayIDs conf).map subscribed ++ Setup.loops.map Ev.go) ∧
    ((b = none ∨ i = none) →
      (Setup b i conf s).1 ≠ none ∧ (Setup b i conf s).2 = s ∧
      Setup.events b i conf s = []) ∧
    (∀ (i0 : Integration) (pre : List Ev) (c : Call) (r : Option Error) (rest : List Ev),
      i = some i0 → Setup.events b i conf s = pre ++ Ev.call c r :: rest →
      ∃ id, c = Call.SetGatewaySubscription true id ∧
        r = i0.SetGatewaySubscription (s.trace ++ pre) true id) := by
  obtain ⟨_, h2, h3, h4⟩ := Setup_spec b i conf s
  have hsucc : (Setup b i conf s).1 = none →
      (Setup b i conf s).2.running = s.running ++ Setup.loops ∧
      Setup.events b i conf s =
        (gatewayIDs conf).map subscribed ++ Setup.loops.map Ev.go := by
    intro hr
    obtain ⟨_, _, _, b4, b5, _⟩ := h3 hr
    exact ⟨b5, b4⟩
  have herr : (Setup b i conf s).1 ≠ none →
      (Setup b i conf s).2.running = s.running ∧
      ∀ l, Ev.go l ∉ Setup.events b i conf s := by
    intro hne
    cases hr : (Setup b i conf s).1 with
    | none => exact absurd hr hne
    | some e =>
      obtain ⟨a0, pre, h⟩ := h4 e hr
      refine ⟨a0, ?_⟩
      intro l
      rcases h with ⟨a1, _⟩ | ⟨id, err, a1, _⟩
      · rw [a1]; exact go_not_mem_subscribed l pre
      · rw [a1]; simp [subscribed]
  have hiff : (Setup b i conf s).1 ≠ none ↔
      (b = none ∨ i = none ∨ (∃ c ∈ conf, ¬ IsHexEUI64 c.GatewayID) ∨
        ∃ id err, Ev.call (Call.SetGatewaySubscription true id) (some err) ∈
          Setup.events b i conf s) := by
    constructor
    · intro hne
      cases hr : (Setup b i conf s).1 with
      | none => exact absurd hr hne
      | some e =>
        obtain ⟨_, pre, h⟩ := h4 e hr
        rcases h with ⟨_, a2⟩ | ⟨id, err, a1, _⟩
        · rcases a2 with a2 | a2 | a2
          · exact Or.inl a2
          · exact Or.inr (Or.inl a2)
          · exact Or.inr (Or.inr (Or.inl a2))
        · exact Or.inr (Or.inr (Or.inr ⟨id, err, by rw [a1]; simp⟩))
    · intro hc hr
      obtain ⟨b1, b2, b3, b4, _, _⟩ := h3 hr
      rcases hc with hc | hc | ⟨c, hc, hbad⟩ | ⟨id, err, hc⟩
      · exact absurd hc b1
      · exact absurd hc b2
      · exact absurd (b3 c hc) hbad
      · rw [b4] at hc
        simp [subscribed] at hc
  have hnot : ∀ o : Option Error, ¬ o ≠ none → o = none := by
    intro o ho
    cases o with
    | none => rfl
    | some e => exact absurd (by simp) ho
  refine ⟨hiff, herr, ?_, ?_, ⟨by decide, by decide⟩, hsucc, h2, ?_⟩
  · intro hR
    have hr := hnot _ (fun hne => hR (hiff.mp hne))
    exact ⟨hr, hsucc hr⟩
  · cases hr : (Setup b i conf s).1 with
    | none => exact Or.inr ⟨rfl, (hsucc hr).1⟩
    | some e =>
      have hne : (Setup b i conf s).1 ≠ none := by rw [hr]; simp
      exact Or.inl ⟨by simp, herr hne⟩
  · intro i0 pre c r rest hi hev
    subst hi
    exact Setup_answers b i0 conf s pre c r rest hev

/-- Witness of C4: with both endpoints set and one well-formed gateway id, `Setup`
succeeds with the eight loops running when the call succeeds, and returns an error with
no loop running when the call fails. -/
theorem Setup_two_outcomes_witness :
    ((Setup (some okBackend) (some okIntegration) confOnce (State.init Chans.empty)).1 = none ∧
      (Setup (some okBackend) (some okIntegration) confOnce
        (State.init Chans.empty)).2.running = [] ++ Setup.loops) ∧
    ((Setup (some okBackend) (some (failingIntegration (Error.new "e"))) confOnce
        (State.init Chans.empty)).1 ≠ none ∧
      (Setup (some okBackend) (some (failingIntegration (Error.new "e"))) confOnce
        (State.init Chans.empty)).2.running = []) := by
  have hev : Setup.events (some okBackend) (some okIntegration) confOnce
      (State.init Chans.empty) = subscribed gw01 :: Setup.loops.map Ev.go := by decide
  refine ⟨?_, by decide, ?_⟩
  · have h := (Setup_two_outcomes (some okBackend) (some okIntegration) confOnce
      (State.init Chans.empty)).2.2.1 (by
        rintro (h | h | ⟨c, hc, hbad⟩ | ⟨id, err, h⟩)
        · cases h
        · cases h
        · simp only [confOnce, List.mem_singleton] at hc
          subst hc
          exact hbad (by decide)
        · rw [hev] at h
          simp [subscribed, Setup.loops] at h)
    exact ⟨h.1, h.2.1⟩
  · exact ((Setup_two_outcomes (some okBackend) (some (failingIntegration (Error.new "e")))
      confOnce (State.init Chans.empty)).2.1 (by decide)).1

/-- C3, counterexample: when the configuration lists gateway `0102030405060708` twice,
`Setup` succeeds and calls `SetGatewaySubscription(true, 0102030405060708)` twice. -/
theorem Setup_subscribes_twice_when_listed_twice :
    (Setup (some okBackend) (some okIntegration) confTwice (State.init Chans.empty)).1 = none ∧
    gatewayIDs confTwice = [gw01, gw01] ∧
    (callsOf (Setup (some okBackend) (some okIntegration) confTwice
      (State.init Chans.empty)).2.trace).count (Call.SetGatewaySubscription true gw01) = 2 := by
  decide

/-- C3, amended: when `Setup` succeeds every configuration entry is a well-formed gateway
id, and `Setup` makes one successful `SetGatewaySubscription(true, id)` call per entry, in
configuration order, so as many calls for an id as there are entries that list it (one
when it is listed once); all these calls come before the eight loops are started. -/
theorem Setup_subscribes_each_entry_before_loops (b : Option Backend)
    (i : Option Integration) (conf : List GatewayConfig) (s : State)
    (h : (Setup b i conf s).1 = none) :
    conf.map (fun c => UnmarshalText c.GatewayID) = (gatewayIDs conf).map Except.ok ∧
    (Setup b i conf s).2.trace =
      s.trace ++ ((gatewayIDs conf).map subscribed ++ Setup.loops.map Ev.go) ∧
    ∀ id, (callsOf (Setup.events b i conf s)).count (Call.SetGatewaySubscription true id) =
      (gatewayIDs conf).count id := by
  obtain ⟨h1, _, h3, _⟩ := Setup_spec b i conf s
  obtain ⟨_, _, b3, b4, _, _⟩ := h3 h
  refine ⟨UnmarshalText_of_all_hex conf b3, by rw [h1, b4], ?_⟩
  intro id
  rw [b4, callsOf_append, callsOf_subscribed, callsOf_go, List.append_nil]
  exact List.count_map_of_injective _ _ (fun x y hxy => by injection hxy) id

/-- Witness of C3 as amended: the configuration that lists one gateway once. -/
theorem Setup_subscribes_each_entry_before_loops_witness :
    (Setup (some okBackend) (some okIntegration) confOnce (State.init Chans.empty)).1 = none ∧
    (Setup (some okBackend) (some okIntegration) confOnce (State.init Chans.empty)).2.trace =
      [] ++ ([gw01].map subscribed ++ Setup.loops.map Ev.go) :=
  ⟨by decide,
    (Setup_subscribes_each_entry_before_loops (some okBackend) (some okIntegration) confOnce
      (State.init Chans.empty) (by decide)).2.1⟩

/-- C5, counterexample: when the call for gateway `0102030405060708` fails with `e`,
`Setup` does not return `e` but `e` wrapped with the message `subscribe gateway error`. -/
theorem Setup_does_not_return_the_bare_error :
    (Setup (some okBackend) (some (failingIntegration (Error.new "e"))) confOnce
        (State.init Chans.empty)).2.trace =
      [Ev.call (Call.SetGatewaySubscription true gw01) (some (Error.new "e"))] ∧
    (Setup (some okBackend) (some (failingIntegration (Error.new "e"))) confOnce
        (State.init Chans.empty)).1 =
      some (Error.wrap (Error.new "e") "subscribe gateway error") ∧
    (Setup (some okBackend) (some (failingIntegration (Error.new "e"))) confOnce
        (State.init Chans.empty)).1 ≠ some (Error.new "e") := by
  decide

/-- C5, amended: when a `SetGatewaySubscription(true, id)` call that `Setup` issues
returns an error `e`, `Setup` returns `e` wrapped by `errors.Wrap` with the message
`subscribe gateway error` (an error whose cause is that of `e`), and starts no loop. -/
theorem Setup_wraps_subscription_error (b : Option Backend) (i : Option Integration)
    (conf : List GatewayConfig) (s : State) (id : EUI64) (err : Error)
    (h : Ev.call (Call.SetGatewaySubscription true id) (some err) ∈ Setup.events b i conf s) :
    (Setup b i conf s).1 = some (errors.Wrap err "subscribe gateway error") ∧
    errors.Cause (errors.Wrap err "subscribe gateway error") = errors.Cause err ∧
    (Setup b i conf s).2.running = s.running ∧
    ∀ l, Ev.go l ∉ Setup.events b i conf s := by
  obtain ⟨_, _, h3, h4⟩ := Setup_spec b i conf s
  cases hr : (Setup b i conf s).1 with
  | none =>
    obtain ⟨_, _, _, b4, _, _⟩ := h3 hr
    rw [b4] at h
    simp [subscribed] at h
  | some e =>
    obtain ⟨a0, pre, hcase⟩ := h4 e hr
    rcases hcase with ⟨a1, _⟩ | ⟨id0, err0, a1, a2⟩
    · rw [a1] at h
      exact absurd h (failed_not_mem_subscribed _ _ pre)
    · rw [a1] at h
      have herr : err = err0 := by
        simp only [List.mem_append, List.mem_singleton, Ev.call.injEq, Option.some.injEq] at h
        rcases h with h | h
        · exact absurd h (failed_not_mem_subscribed _ _ pre)
        · exact h.2
      subst herr
      refine ⟨by rw [a2], rfl, a0, ?_⟩
      intro l
      rw [a1]
      simp [subscribed]

/-- Witness of C5 as amended: the one configured call fails. -/
theorem Setup_wraps_subscription_error_witness :
    Ev.call (Call.SetGatewaySubscription true gw01) (some (Error.new "e")) ∈
      Setup.events (some okBackend) (some (failingIntegration (Error.new "e"))) confOnce
        (State.init Chans.empty) ∧
    (Setup (some okBackend) (some (failingIntegration (Error.new "e"))) confOnce
        (State.init Chans.empty)).1 =
      some (errors.Wrap (Error.new "e") "subscribe gateway error") :=
  ⟨by decide,
    (Setup_wraps_subscription_error (some okBackend)
      (some (failingIntegration (Error.new "e"))) confOnce (State.init Chans.empty) gw01
      (Error.new "e") (by decide)).1⟩

/-! ## The goroutines and the loops, step by step -/

/-- Every goroutine either faults before calling anything, or makes its one call and logs
its failure. -/
theorem Task.run_eq (w : World) (t : Task) (s : State) :
    t.run w s =
      match t.call (w.metadataGet s.trace) with
      | none => s.fault "invalid memory address or nil pointer dereference"
      | some c => s.perform w c c.entry := by
  cases t with
  | uplinkFrame v =>
    simp only [Task.run, forwardUplinkFrameLoop.func, Task.call]
    cases forwardUplinkFrameLoop.ids v with
    | none => rfl
    | some p => rfl
  | stats v => rfl
  | txAck v => rfl
  | rawEvent v => rfl
  | downlinkFrame v => rfl
  | gatewayConfig v => rfl
  | rawCommand v => rfl

theorem Task.call_strip (md : MetaData) (t : Task) :
    (t.call md).map Call.strip = t.call [] := by
  cases t with
  | uplinkFrame v =>
    simp only [Task.call]
    cases forwardUplinkFrameLoop.ids v <;> rfl
  | stats v => rfl
  | txAck v => rfl
  | rawEvent v => rfl
  | downlinkFrame v => rfl
  | gatewayConfig v => rfl
  | rawCommand v => rfl

theorem perform_control (s : State) (w : World) (c : Call) (entry : Error → LogEntry) :
    (s.perform w c entry).control = s.control := by
  unfold State.perform
  cases w.invoke s.trace c <;> rfl

theorem Task.call_isSome (md : MetaData) (t : Task) :
    (t.call md).isSome = (t.call []).isSome := by
  rw [← Task.call_strip md t, Option.isSome_map']

theorem Task.run_control (w : World) (t : Task) (s : State) :
    (t.run w s).control =
      (s.alwaysSubscribe, s.running, s.tasks, s.chans, s.crashed || !(t.call []).isSome) := by
  rw [Task.run_eq]
  have h := Task.call_isSome (w.metadataGet s.trace) t
  cases hc : t.call (w.metadataGet s.trace) with
  | none =>
    rw [hc] at h
    simp [State.fault, State.control, ← h]
  | some c =>
    rw [hc] at h
    simp [State.control, perform_alwaysSubscribe, perform_running, perform_tasks,
      perform_chans, perform_crashed, ← h]

theorem iterate_control (w w' : World) (l : Loop) (s s' : State) (h : s.control = s'.control) :
    (iterate w l s).control = (iterate w' l s').control := by
  obtain ⟨tr, al, ru, ta, ch, cr⟩ := s
  obtain ⟨tr', al', ru', ta', ch', cr'⟩ := s'
  simp only [State.control, Prod.mk.injEq] at h
  obtain ⟨rfl, rfl, rfl, rfl, rfl⟩ := h
  obtain ⟨c1, c2, c3, c4, c5, c6, c7, c8⟩ := ch
  cases l
  · cases c1 <;> simp [iterate, gatewaySubscribeLoop, State.control, perform_alwaysSubscribe,
      perform_running, perform_tasks, perform_chans, perform_crashed]
  · cases c2 <;> simp [iterate, forwardUplinkFrameLoop, State.spawn, State.control]
  · cases c3 <;> simp [iterate, forwardGatewayStatsLoop, State.spawn, State.control]
  · cases c4 <;> simp [iterate, forwardDownlinkTxAckLoop, State.spawn, State.control]
  · cases c6 <;> simp [iterate, forwardDownlinkFrameLoop, State.spawn, State.control]
  · cases c7 <;> simp [iterate, forwardGatewayConfigurationLoop, State.spawn, State.control]
  · cases c8 <;> simp [iterate, forwardRawPacketForwarderCommandLoop, State.spawn, State.control]
  · cases c5 <;> simp [iterate, forwardRawPacketForwarderEventLoop, State.spawn, State.control]

/-- One scheduling step changes the control part of the state in a way that does not
depend on what the endpoints answer. -/
theorem step_control (w w' : World) (s s' : State) (c : Choice) (h : s.control = s'.control) :
    (step w s c).control = (step w' s' c).control := by
  have h0 := h
  simp only [State.control, Prod.mk.injEq] at h0
  obtain ⟨h1, h2, h3, h4, h5⟩ := h0
  unfold step
  rw [h5]
  cases hcr : s'.crashed with
  | true => simpa using h
  | false =>
    simp only [Bool.false_eq_true, ↓reduceIte]
    cases c with
    | recv l =>
      rw [h2]
      by_cases hl : l ∈ s'.running
      · simp only [hl, ↓reduceIte]
        exact iterate_control w w' l s s' h
      · simpa only [hl, ↓reduceIte] using h
    | run k =>
      rw [h3]
      cases ht : s'.tasks.get? k with
      | none => simpa only [ht] using h
      | some t =>
        simp only [ht, Task.run_control, h1, h2, h3, h4, h5]

theorem exec_control (w w' : World) (sched : List Choice) :
    ∀ (s s' : State), s.control = s'.control →
      (exec w s sched).control = (exec w' s' sched).control := by
  induction sched with
  | nil => intro s s' h; exact h
  | cons c cs ih =>
    intro s s' h
    simp only [exec, List.foldl_cons]
    exact ih _ _ (step_control w w' s s' c h)

/-! ## Conservation of calls -/

theorem perm_cons_eraseIdx {α : Type} : ∀ (l : List α) (k : Nat) (t : α),
    l.get? k = some t → (t :: l.eraseIdx k).Perm l
  | [], k, t, h => by simp at h
  | a :: l, 0, t, h => by
    simp only [List.get?_cons_zero, Option.some.injEq] at h
    subst h
    simp
  | a :: l, k + 1, t, h => by
    simp only [List.get?_cons_succ] at h
    have ih := perm_cons_eraseIdx l k t h
    simp only [List.eraseIdx_cons_succ]
    exact (List.Perm.swap a t _).trans (ih.cons a)

theorem count_filterMap_eraseIdx (f : Task → Option Call) (l : List Task) (k : Nat)
    (t : Task) (h : l.get? k = some t) (c : Call) :
    (l.filterMap f).count c =
      ((l.eraseIdx k).filterMap f).count c + (f t).toList.count c := by
  have hp := ((perm_cons_eraseIdx l k t h).filterMap f).count_eq c
  rw [← hp, List.filterMap_cons]
  cases f t with
  | none => simp
  | some d => simp [List.count_cons]

theorem ledger_count (s : State) (c : Call) :
    s.ledger.count c =
      ((callsOf s.trace).map Call.strip).count c +
        ((s.chans.SubscribeEventChan.map intent).count c +
          (s.pending.filterMap (Task.call [])).count c) := by
  simp only [State.ledger, State.owed, List.count_append]

theorem ledger_perform (s : State) (w : World) (d : Call) (entry : Error → LogEntry)
    (c : Call) :
    (s.perform w d entry).ledger.count c = s.ledger.count c + [d.strip].count c := by
  simp only [ledger_count, callsOf_perform, State.pending, perform_chans, perform_tasks,
    List.map_append, List.count_append, List.map_cons, List.map_nil]
  omega

theorem ledger_fault (s : State) (msg : String) (c : Call) :
    (s.fault msg).ledger.count c = s.ledger.count c := by
  simp only [ledger_count, State.fault, State.pending, callsOf_append, callsOf,
    List.append_nil]

/-- Running a goroutine whose item was taken out of the waiting ones keeps the ledger. -/
theorem ledger_run (w : World) (s : State) (k : Nat) (t : Task)
    (h : s.tasks.get? k = some t) (c : Call) :
    (t.run w { s with tasks := s.tasks.eraseIdx k }).ledger.count c = s.ledger.count c := by
  have hs := Task.call_strip (w.metadataGet s.trace) t
  have he := count_filterMap_eraseIdx (Task.call []) s.tasks k t h c
  rw [Task.run_eq]
  cases hc : t.call (w.metadataGet s.trace) with
  | none =>
    rw [hc] at hs
    simp only [Option.map_none'] at hs
    rw [← hs] at he
    simp only [ledger_fault]
    simp only [ledger_count, State.pending, List.filterMap_append, List.count_append] at he ⊢
    simp only [Option.toList, List.count_nil] at he
    omega
  | some d =>
    rw [hc] at hs
    simp only [Option.map_some'] at hs
    rw [← hs] at he
    simp only [ledger_perform]
    simp only [ledger_count, State.pending, List.filterMap_append, List.count_append] at he ⊢
    simp only [Option.toList] at he
    omega

theorem ledger_iterate (w : World) (l : Loop) (s : State) (c : Call) :
    (iterate w l s).ledger.count c = s.ledger.count c := by
  obtain ⟨tr, al, ru, ta, ch, cr⟩ := s
  obtain ⟨c1, c2, c3, c4, c5, c6, c7, c8⟩ := ch
  cases l
  · cases c1 with
    | nil => simp [iterate, gatewaySubscribeLoop, ledger_count, State.pending]
    | cons e es =>
      simp only [iterate, gatewaySubscribeLoop, ledger_perform]
      simp only [ledger_count, State.pending, List.map_cons, List.count_cons, Call.strip,
        intent, List.count_nil]
      omega
  · cases c2 with
    | nil => simp [iterate, forwardUplinkFrameLoop, ledger_count, State.pending]
    | cons e es =>
      simp only [iterate, forwardUplinkFrameLoop, State.spawn, ledger_count, State.pending,
        List.map_cons, List.filterMap_append, List.filterMap_cons, List.count_append,
        List.filterMap_nil]
      cases Task.call [] (Task.uplinkFrame e) <;> (simp [List.count_cons]; try omega)
  · cases c3 with
    | nil => simp [iterate, forwardGatewayStatsLoop, ledger_count, State.pending]
    | cons e es =>
      simp only [iterate, forwardGatewayStatsLoop, State.spawn, ledger_count, State.pending,
        List.map_cons, List.filterMap_append, List.filterMap_cons, List.count_append,
        List.filterMap_nil]
      cases Task.call [] (Task.stats e) <;> (simp [List.count_cons]; try omega)
  · cases c4 with
    | nil => simp [iterate, forwardDownlinkTxAckLoop, ledger_count, State.pending]
    | cons e es =>
      simp only [iterate, forwardDownlinkTxAckLoop, State.spawn, ledger_count, State.pending,
        List.map_cons, List.filterMap_append, List.filterMap_cons, List.count_append,
        List.filterMap_nil]
      cases Task.call [] (Task.txAck e) <;> (simp [List.count_cons]; try omega)
  · cases c6 with
    | nil => simp [iterate, forwardDownlinkFrameLoop, ledger_count, State.pending]
    | cons e es =>
      simp only [iterate, forwardDownlinkFrameLoop, State.spawn, ledger_count, State.pending,
        List.map_cons, List.filterMap_append, List.filterMap_cons, List.count_append,
        List.filterMap_nil]
      cases Task.call [] (Task.downlinkFrame e) <;> (simp [List.count_cons]; try omega)
  · cases c7 with
    | nil => simp [iterate, forwardGatewayConfigurationLoop, ledger_count, State.pending]
    | cons e es =>
      simp only [iterate, forwardGatewayConfigurationLoop, State.spawn, ledger_count,
        State.pending, List.map_cons, List.filterMap_append, List.filterMap_cons,
        List.count_append, List.filterMap_nil]
      cases Task.call [] (Task.gatewayConfig e) <;> (simp [List.count_cons]; try omega)
  · cases c8 with
    | nil => simp [iterate, forwardRawPacketForwarderCommandLoop, ledger_count, State.pending]
    | cons e es =>
      simp only [iterate, forwardRawPacketForwarderCommandLoop, State.spawn, ledger_count,
        State.pending, List.map_cons, List.filterMap_append, List.filterMap_cons,
        List.count_append, List.filterMap_nil]
      cases Task.call [] (Task.rawCommand e) <;> (simp [List.count_cons]; try omega)
  · cases c5 with
    | nil => simp [iterate, forwardRawPacketForwarderEventLoop, ledger_count, State.pending]
    | cons e es =>
      simp only [iterate, forwardRawPacketForwarderEventLoop, State.spawn, ledger_count,
        State.pending, List.map_cons, List.filterMap_append, List.filterMap_cons,
        List.count_append, List.filterMap_nil]
      cases Task.call [] (Task.rawEvent e) <;> (simp [List.count_cons]; try omega)

theorem ledger_step (w : World) (s : State) (ch : Choice) (c : Call) :
    (step w s ch).ledger.count c = s.ledger.count c := by
  unfold step
  split
  · rfl
  · cases ch with
    | recv l =>
      simp only
      split
      · exact ledger_iterate w l s c
      · rfl
    | run k =>
      simp only
      cases ht : s.tasks.get? k with
      | none => rfl
      | some t => exact ledger_run w s k t ht c

/-- Along every schedule and whatever the endpoints answer, the calls made (stats
metadata erased) together with the calls still owed stay the same, counted with
multiplicity. -/
theorem ledger_exec (w : World) (sched : List Choice) :
    ∀ (s : State) (c : Call), (exec w s sched).ledger.count c = s.ledger.count c := by
  induction sched with
  | nil => intro s c; rfl
  | cons ch chs ih =>
    intro s c
    simp only [exec, List.foldl_cons]
    exact (ih (step w s ch) c).trans (ledger_step w s ch c)

/-! ## What a step adds to the trace -/

theorem failures_append (xs ys : List Ev) : failures (xs ++ ys) = failures xs ++ failures ys := by
  induction xs with
  | nil => rfl
  | cons e es ih =>
    cases e with
    | call c r => cases r <;> simp [failures, ih]
    | log entry => simp [failures, ih]
    | go l => simp [failures, ih]
    | fault msg => simp [failures, ih]

theorem added_logs {w : World} {tr δ : List Ev} (h : Added w tr δ) :
    logsOf δ = failures δ := by
  cases h <;> rfl

theorem perform_added (s : State) (w : World) (c : Call) :
    ∃ δ, (s.perform w c c.entry).trace = s.trace ++ δ ∧ Added w s.trace δ := by
  unfold State.perform
  cases h : w.invoke s.trace c with
  | none => exact ⟨_, rfl, Added.success w s.trace c h⟩
  | some err =>
    exact ⟨[Ev.call c (some err), Ev.log (c.entry err)], by simp [State.emit],
      Added.failure w s.trace c err h⟩

theorem run_added (w : World) (t : Task) (s : State) :
    ∃ δ, (t.run w s).trace = s.trace ++ δ ∧ Added w s.trace δ := by
  rw [Task.run_eq]
  cases t.call (w.metadataGet s.trace) with
  | none => exact ⟨_, rfl, Added.fault w s.trace _⟩
  | some c => exact perform_added s w c

theorem iterate_added (w : World) (l : Loop) (s : State) :
    ∃ δ, (iterate w l s).trace = s.trace ++ δ ∧ Added w s.trace δ := by
  obtain ⟨tr, al, ru, ta, ch, cr⟩ := s
  obtain ⟨c1, c2, c3, c4, c5, c6, c7, c8⟩ := ch
  cases l
  · cases c1 with
    | nil => exact ⟨[], by simp [iterate, gatewaySubscribeLoop], Added.nothing w tr⟩
    | cons e es => exact perform_added _ w (Call.SetGatewaySubscription e.Subscribe e.GatewayID)
  · cases c2 <;>
      exact ⟨[], by simp [iterate, forwardUplinkFrameLoop, State.spawn], Added.nothing w tr⟩
  · cases c3 <;>
      exact ⟨[], by simp [iterate, forwardGatewayStatsLoop, State.spawn], Added.nothing w tr⟩
  · cases c4 <;>
      exact ⟨[], by simp [iterate, forwardDownlinkTxAckLoop, State.spawn], Added.nothing w tr⟩
  · cases c6 <;>
      exact ⟨[], by simp [iterate, forwardDownlinkFrameLoop, State.spawn], Added.nothing w tr⟩
  · cases c7 <;>
      exact ⟨[], by simp [iterate, forwardGatewayConfigurationLoop, State.spawn],
        Added.nothing w tr⟩
  · cases c8 <;>
      exact ⟨[], by simp [iterate, forwardRawPacketForwarderCommandLoop, State.spawn],
        Added.nothing w tr⟩
  · cases c5 <;>
      exact ⟨[], by simp [iterate, forwardRawPacketForwarderEventLoop, State.spawn],
        Added.nothing w tr⟩

theorem step_added (w : World) (s : State) (ch : Choice) :
    ∃ δ, (step w s ch).trace = s.trace ++ δ ∧ Added w s.trace δ := by
  unfold step
  split
  · exact ⟨[], by simp, Added.nothing w s.trace⟩
  · cases ch with
    | recv l =>
      simp only
      split
      · exact iterate_added w l s
      · exact ⟨[], by simp, Added.nothing w s.trace⟩
    | run k =>
      simp only
      cases s.tasks.get? k with
      | none => exact ⟨[], by simp, Added.nothing w s.trace⟩
      | some t => exact run_added w t { s with tasks := s.tasks.eraseIdx k }

theorem steps_logs {w : World} {tr δ : List Ev} (h : Steps w tr δ) :
    logsOf δ = failures δ := by
  induction h with
  | done tr => rfl
  | more tr δ rest h _ ih => rw [logsOf_append, failures_append, added_logs h, ih]

theorem exec_steps (w : World) (sched : List Choice) :
    ∀ s : State, ∃ δ, (exec w s sched).trace = s.trace ++ δ ∧ Steps w s.trace δ := by
  induction sched with
  | nil => intro s; exact ⟨[], by simp [exec], Steps.done s.trace⟩
  | cons ch chs ih =>
    intro s
    obtain ⟨δ1, h1, a1⟩ := step_added w s ch
    obtain ⟨δ2, h2, a2⟩ := ih (step w s ch)
    refine ⟨δ1 ++ δ2, ?_, ?_⟩
    · simp only [exec, List.foldl_cons] at h2 ⊢
      rw [h2, h1, List.append_assoc]
    · rw [h1] at a2
      exact Steps.more s.trace δ1 δ2 a1 a2

/-! ## The calls of a step -/

theorem strip_callsOf_perform (s : State) (w : World) (c : Call) (entry : Error → LogEntry) :
    (callsOf (s.perform w c entry).trace).map Call.strip =
      (callsOf s.trace).map Call.strip ++ [c.strip] := by
  rw [callsOf_perform, List.map_append, List.map_cons, List.map_nil]

theorem run_calls (w : World) (t : Task) (s : State) :
    (callsOf (t.run w s).trace).map Call.strip =
      (callsOf s.trace).map Call.strip ++ (t.call []).toList := by
  have hs := Task.call_strip (w.metadataGet s.trace) t
  rw [Task.run_eq]
  cases hc : t.call (w.metadataGet s.trace) with
  | none =>
    rw [hc] at hs
    simp only [Option.map_none'] at hs
    simp [← hs, State.fault, callsOf_append, callsOf]
  | some c =>
    rw [hc] at hs
    simp only [Option.map_some'] at hs
    simp [← hs, strip_callsOf_perform]

theorem iterate_calls (w : World) (l : Loop) (s : State) :
    (callsOf (iterate w l s).trace).map Call.strip =
      (callsOf s.trace).map Call.strip ++
        (match l, s.chans.SubscribeEventChan with
         | Loop.gatewaySubscribeLoop, event :: _ => [intent event]
         | _, _ => []) := by
  obtain ⟨tr, al, ru, ta, ch, cr⟩ := s
  obtain ⟨c1, c2, c3, c4, c5, c6, c7, c8⟩ := ch
  cases l
  · cases c1 with
    | nil => simp [iterate, gatewaySubscribeLoop]
    | cons e es => simp [iterate, gatewaySubscribeLoop, strip_callsOf_perform, intent, Call.strip]
  · cases c2 <;> simp [iterate, forwardUplinkFrameLoop, State.spawn]
  · cases c3 <;> simp [iterate, forwardGatewayStatsLoop, State.spawn]
  · cases c4 <;> simp [iterate, forwardDownlinkTxAckLoop, State.spawn]
  · cases c6 <;> simp [iterate, forwardDownlinkFrameLoop, State.spawn]
  · cases c7 <;> simp [iterate, forwardGatewayConfigurationLoop, State.spawn]
  · cases c8 <;> simp [iterate, forwardRawPacketForwarderCommandLoop, State.spawn]
  · cases c5 <;> simp [iterate, forwardRawPacketForwarderEventLoop, State.spawn]

/-- The calls of a step are those that `State.next` names. -/
theorem step_calls (w : World) (s : State) (ch : Choice) :
    (callsOf (step w s ch).trace).map Call.strip =
      (callsOf s.trace).map Call.strip ++ s.next ch := by
  unfold step State.next
  split
  · simp
  · cases ch with
    | recv l =>
      simp only
      split
      · exact iterate_calls w l s
      · simp
    | run k =>
      simp only
      cases s.tasks.get? k with
      | none => simp
      | some t => exact run_calls w t { s with tasks := s.tasks.eraseIdx k }

theorem next_congr (s s' : State) (ch : Choice) (h : s.control = s'.control) :
    s.next ch = s'.next ch := by
  simp only [State.control, Prod.mk.injEq] at h
  obtain ⟨_, h2, h3, h4, h5⟩ := h
  simp only [State.next, h2, h3, h4, h5]

theorem exec_calls (w w' : World) (sched : List Choice) :
    ∀ (s s' : State), s.control = s'.control →
      (callsOf s.trace).map Call.strip = (callsOf s'.trace).map Call.strip →
      (callsOf (exec w s sched).trace).map Call.strip =
        (callsOf (exec w' s' sched).trace).map Call.strip := by
  induction sched with
  | nil => intro s s' _ h; exact h
  | cons ch chs ih =>
    intro s s' hc h
    simp only [exec, List.foldl_cons]
    refine ih _ _ (step_control w w' s s' ch hc) ?_
    rw [step_calls, step_calls, h, next_congr s s' ch hc]

/-! ## The subscription calls of a step -/

theorem Task.call_isSubscription (md : MetaData) (t : Task) (c : Call)
    (h : t.call md = some c) : c.isSubscription = false := by
  cases t with
  | uplinkFrame v =>
    simp only [Task.call] at h
    cases hi : forwardUplinkFrameLoop.ids v with
    | none => rw [hi] at h; simp at h
    | some p =>
      rw [hi] at h
      simp only [Option.map_some', Option.some.injEq] at h
      subst h; rfl
  | stats v => simp only [Task.call, Option.some.injEq] at h; subst h; rfl
  | txAck v => simp only [Task.call, Option.some.injEq] at h; subst h; rfl
  | rawEvent v => simp only [Task.call, Option.some.injEq] at h; subst h; rfl
  | downlinkFrame v => simp only [Task.call, Option.some.injEq] at h; subst h; rfl
  | gatewayConfig v => simp only [Task.call, Option.some.injEq] at h; subst h; rfl
  | rawCommand v => simp only [Task.call, Option.some.injEq] at h; subst h; rfl

theorem subscriptionCalls_perform (s : State) (w : World) (c : Call)
    (entry : Error → LogEntry) :
    subscriptionCalls (s.perform w c entry).trace =
      subscriptionCalls s.trace ++ (if c.isSubscription then [c] else []) := by
  simp only [subscriptionCalls, callsOf_perform, List.filter_append]
  cases hc : c.isSubscription <;> simp [List.filter, hc]

theorem run_subscription (w : World) (t : Task) (s : State) :
    subscriptionCalls (t.run w s).trace = subscriptionCalls s.trace ∧
    (t.run w s).chans = s.chans := by
  rw [Task.run_eq]
  cases hc : t.call (w.metadataGet s.trace) with
  | none => simp [State.fault, subscriptionCalls, callsOf_append, callsOf]
  | some c =>
    simp only [subscriptionCalls_perform, perform_chans,
      Task.call_isSubscription _ t c hc]
    simp

theorem iterate_subscription (w : World) (l : Loop) (s : State) :
    subscriptionCalls (iterate w l s).trace =
      subscriptionCalls s.trace ++
        (match l, s.chans.SubscribeEventChan with
         | Loop.gatewaySubscribeLoop, event :: _ => [intent event]
         | _, _ => []) ∧
    s.chans.SubscribeEventChan =
      (match l, s.chans.SubscribeEventChan with
         | Loop.gatewaySubscribeLoop, event :: _ => [event]
         | _, _ => []) ++ (iterate w l s).chans.SubscribeEventChan := by
  obtain ⟨tr, al, ru, ta, ch, cr⟩ := s
  obtain ⟨c1, c2, c3, c4, c5, c6, c7, c8⟩ := ch
  cases l
  · cases c1 with
    | nil => simp [iterate, gatewaySubscribeLoop]
    | cons e es =>
      simp [iterate, gatewaySubscribeLoop, subscriptionCalls_perform, perform_chans, intent,
        Call.isSubscription]
  · cases c2 <;> simp [iterate, forwardUplinkFrameLoop, State.spawn]
  · cases c3 <;> simp [iterate, forwardGatewayStatsLoop, State.spawn]
  · cases c4 <;> simp [iterate, forwardDownlinkTxAckLoop, State.spawn]
  · cases c6 <;> simp [iterate, forwardDownlinkFrameLoop, State.spawn]
  · cases c7 <;> simp [iterate, forwardGatewayConfigurationLoop, State.spawn]
  · cases c8 <;> simp [iterate, forwardRawPacketForwarderCommandLoop, State.spawn]
  · cases c5 <;> simp [iterate, forwardRawPacketForwarderEventLoop, State.spawn]

/-- The subscription calls of a step are those of the intent it receives. -/
theorem step_subscription (w : World) (s : State) (ch : Choice) :
    subscriptionCalls (step w s ch).trace =
      subscriptionCalls s.trace ++ (s.received ch).map intent ∧
    s.chans.SubscribeEventChan = s.received ch ++ (step w s ch).chans.SubscribeEventChan := by
  unfold step State.received
  split
  · simp
  · cases ch with
    | recv l =>
      simp only
      split
      · have h := iterate_subscription w l s
        refine ⟨?_, h.2⟩
        rw [h.1]
        cases l <;> cases s.chans.SubscribeEventChan <;> rfl
      · simp
    | run k =>
      simp only
      cases s.tasks.get? k with
      | none => simp
      | some t =>
        have h := run_subscription w t { s with tasks := s.tasks.eraseIdx k }
        simp [h.1, h.2]

theorem exec_subscription (w : World) (sched : List Choice) :
    ∀ s : State, ∃ received : List SubscribeEvent,
      s.chans.SubscribeEventChan = received ++ (exec w s sched).chans.SubscribeEventChan ∧
      subscriptionCalls (exec w s sched).trace =
        subscriptionCalls s.trace ++ received.map intent := by
  induction sched with
  | nil => intro s; exact ⟨[], by simp [exec]⟩
  | cons ch chs ih =>
    intro s
    obtain ⟨h1, h2⟩ := step_subscription w s ch
    obtain ⟨r, h3, h4⟩ := ih (step w s ch)
    refine ⟨s.received ch ++ r, ?_, ?_⟩
    · simp only [exec, List.foldl_cons] at h3 ⊢
      rw [List.append_assoc, ← h3, ← h2]
    · simp only [exec, List.foldl_cons] at h4 ⊢
      rw [h4, h1, List.map_append, List.append_assoc]

/-- The subscription loop, scheduled `n` times in a row, receives the next `n` intents
whatever the calls answer. -/
theorem exec_subscribe_loop (w : World) : ∀ (n : Nat) (s : State),
    s.crashed = false → Loop.gatewaySubscribeLoop ∈ s.running →
    n ≤ s.chans.SubscribeEventChan.length →
    (exec w s (List.replicate n (Choice.recv Loop.gatewaySubscribeLoop))).chans.SubscribeEventChan
        = s.chans.SubscribeEventChan.drop n ∧
    subscriptionCalls
        (exec w s (List.replicate n (Choice.recv Loop.gatewaySubscribeLoop))).trace =
      subscriptionCalls s.trace ++ (s.chans.SubscribeEventChan.take n).map intent
  | 0, s, _, _, _ => by simp [exec]
  | n + 1, s, hc, hr, hn => by
    cases hch : s.chans.SubscribeEventChan with
    | nil => rw [hch] at hn; simp at hn
    | cons e es =>
      have hstep : step w s (Choice.recv Loop.gatewaySubscribeLoop) =
          State.perform { s with chans := { s.chans with SubscribeEventChan := es } } w
            (Call.SetGatewaySubscription e.Subscribe e.GatewayID) gatewaySubscribeLoop.entry := by
        simp [step, hc, hr, iterate, gatewaySubscribeLoop, hch]
      have hn2 : n ≤ es.length := by rw [hch] at hn; simpa using hn
      have ih := exec_subscribe_loop w n (step w s (Choice.recv Loop.gatewaySubscribeLoop))
        (by rw [hstep, perform_crashed]; exact hc)
        (by rw [hstep, perform_running]; exact hr)
        (by rw [hstep, perform_chans]; exact hn2)
      simp only [List.replicate_succ, exec, List.foldl_cons] at ih ⊢
      refine ⟨by rw [ih.1, hstep, perform_chans]; rfl, ?_⟩
      rw [ih.2, hstep, subscriptionCalls_perform, perform_chans]
      simp [Call.isSubscription, intent]

theorem strip_of_not_stats (c : Call) (h : c.isStats = false) : c.strip = c := by
  cases c with
  | PublishEvent g k id v => cases v <;> first | rfl | simp [Call.isStats] at h
  | SetGatewaySubscription b g => rfl
  | SendDownlinkFrame v => rfl
  | ApplyConfiguration v => rfl
  | RawPacketForwarderCommand v => rfl

theorem isStats_strip (c : Call) : c.strip.isStats = c.isStats := by
  cases c with
  | PublishEvent g k id v => cases v <;> rfl
  | SetGatewaySubscription b g => rfl
  | SendDownlinkFrame v => rfl
  | ApplyConfiguration v => rfl
  | RawPacketForwarderCommand v => rfl

theorem count_strip (c : Call) (h : c.isStats = false) (l : List Call) :
    (l.map Call.strip).count c = l.count c := by
  induction l with
  | nil => rfl
  | cons a l ih =>
    simp only [List.map_cons, List.count_cons, ih]
    by_cases ha : a.isStats = false
    · rw [strip_of_not_stats a ha]
    · have h1 : a.strip ≠ c := fun e => ha (by rw [← isStats_strip, e, h])
      have h2 : a ≠ c := fun e => ha (by rw [e, h])
      simp [h1, h2]

theorem quiescent_owed (s : State) (h : s.quiescent) : s.owed = [] := by
  obtain ⟨h1, h2⟩ := h
  simp [State.owed, State.pending, h1, h2]

/-! ## Progress -/

/-- After a successful `Setup` the state is healthy, provided that the process was alive
and that no pending uplink frame lacks `RxInfo`. -/
theorem Setup_healthy (b : Option Backend) (i : Option Integration)
    (conf : List GatewayConfig) (s : State) (h : (Setup b i conf s).1 = none)
    (hc : s.crashed = false) (hp : ∀ t ∈ s.pending, (t.call []).isSome = true) :
    (Setup b i conf s).2.healthy := by
  obtain ⟨_, _, h3, _⟩ := Setup_spec b i conf s
  obtain ⟨_, _, _, _, b5, _⟩ := h3 h
  obtain ⟨f1, f2, f3⟩ := Setup_frame b i conf s
  refine ⟨by rw [f3]; exact hc, ?_, ?_⟩
  · intro l hl
    rw [b5]
    exact List.mem_append_right _ hl
  · intro t ht
    apply hp t
    simpa only [State.pending, f1, f2] using ht


theorem healthy_run (w : World) (s : State) (t : Task) (ts : List Task)
    (ht : s.tasks = t :: ts) (h : s.healthy) :
    (step w s (Choice.run 0)).healthy ∧ (step w s (Choice.run 0)).size < s.size := by
  obtain ⟨h1, h2, h3⟩ := h
  have hsome : (t.call (w.metadataGet s.trace)).isSome = true := by
    rw [Task.call_isSome]
    exact h3 t (by simp [State.pending, ht])
  obtain ⟨c, hc⟩ := Option.isSome_iff_exists.mp hsome
  have hstep : step w s (Choice.run 0) =
      State.perform { s with tasks := ts } w c c.entry := by
    simp only [step, h1, Bool.false_eq_true, ↓reduceIte, ht, List.get?_cons_zero,
      List.eraseIdx_cons_zero, Task.run_eq, hc]
  rw [hstep]
  refine ⟨⟨by rw [perform_crashed]; exact h1, by rw [perform_running]; exact h2, ?_⟩, ?_⟩
  · intro t0 h0
    apply h3 t0
    simp only [State.pending, perform_tasks, perform_chans, List.mem_append] at h0 ⊢
    rcases h0 with h0 | h0
    · exact Or.inl (by rw [ht]; exact List.mem_cons_of_mem t h0)
    · exact Or.inr h0
  · simp only [State.size, perform_tasks, perform_chans, ht, List.length_cons]
    omega

theorem healthy_recv (w : World) (s : State) (h : s.healthy)
    (hne : s.chans ≠ ⟨[], [], [], [], [], [], [], []⟩) :
    ∃ l, (step w s (Choice.recv l)).healthy ∧ (step w s (Choice.recv l)).size < s.size := by
  obtain ⟨tr, al, ru, ta, ch, cr⟩ := s
  obtain ⟨c1, c2, c3, c4, c5, c6, c7, c8⟩ := ch
  obtain ⟨h1, h2, h3⟩ := h
  simp only at h1
  subst h1
  rcases c1 with _ | ⟨e, es⟩
  swap
  · have hl : Loop.gatewaySubscribeLoop ∈ ru := h2 _ (by decide)
    refine ⟨Loop.gatewaySubscribeLoop, ⟨?_, ?_, ?_⟩, ?_⟩
    · simp only [step, Bool.false_eq_true, ↓reduceIte, hl, iterate, gatewaySubscribeLoop,
        perform_crashed]
    · simp only [step, Bool.false_eq_true, ↓reduceIte, hl, iterate, gatewaySubscribeLoop,
        perform_running]
      exact h2
    · intro t0 h0
      apply h3 t0
      simp only [step, Bool.false_eq_true, ↓reduceIte, hl, iterate, gatewaySubscribeLoop,
        State.pending, perform_tasks, perform_chans] at h0 ⊢
      exact h0
    · simp only [step, Bool.false_eq_true, ↓reduceIte, hl, iterate, gatewaySubscribeLoop,
        State.size, perform_tasks, perform_chans, List.length_cons]
      omega
  rcases c2 with _ | ⟨e, es⟩
  swap
  · have hl : Loop.forwardUplinkFrameLoop ∈ ru := h2 _ (by decide)
    refine ⟨Loop.forwardUplinkFrameLoop, ⟨?_, ?_, ?_⟩, ?_⟩
    · simp only [step, Bool.false_eq_true, ↓reduceIte, hl, iterate, forwardUplinkFrameLoop,
        State.spawn]
    · simp only [step, Bool.false_eq_true, ↓reduceIte, hl, iterate, forwardUplinkFrameLoop,
        State.spawn]
      exact h2
    · intro t0 h0
      apply h3 t0
      simp only [step, Bool.false_eq_true, ↓reduceIte, hl, iterate, forwardUplinkFrameLoop,
        State.spawn, State.pending, List.mem_append, List.mem_cons,
        List.mem_singleton, List.map_cons] at h0 ⊢
      tauto
    · simp only [step, Bool.false_eq_true, ↓reduceIte, hl, iterate, forwardUplinkFrameLoop,
        State.spawn, State.size, List.length_cons, List.length_append, List.length_nil]
      omega
  rcases c3 with _ | ⟨e, es⟩
  swap
  · have hl : Loop.forwardGatewayStatsLoop ∈ ru := h2 _ (by decide)
    refine ⟨Loop.forwardGatewayStatsLoop, ⟨?_, ?_, ?_⟩, ?_⟩
    · simp only [step, Bool.false_eq_true, ↓reduceIte, hl, iterate, forwardGatewayStatsLoop,
        State.spawn]
    · simp only [step, Bool.false_eq_true, ↓reduceIte, hl, iterate, forwardGatewayStatsLoop,
        State.spawn]
      exact h2
    · intro t0 h0
      apply h3 t0
      simp only [step, Bool.false_eq_true, ↓reduceIte, hl, iterate, forwardGatewayStatsLoop,
        State.spawn, State.pending, List.mem_append, List.mem_cons,
        List.mem_singleton, List.map_cons] at h0 ⊢
      tauto
    · simp only [step, Bool.false_eq_true, ↓reduceIte, hl, iterate, forwardGatewayStatsLoop,
        State.spawn, State.size, List.length_cons, List.length_append, List.length_nil]
      omega
  rcases c4 with _ | ⟨e, es⟩
  swap
  · have hl : Loop.forwardDownlinkTxAckLoop ∈ ru := h2 _ (by decide)
    refine ⟨Loop.forwardDownlinkTxAckLoop, ⟨?_, ?_, ?_⟩, ?_⟩
    · simp only [step, Bool.false_eq_true, ↓reduceIte, hl, iterate, forwardDownlinkTxAckLoop,
        State.spawn]
    · simp only [step, Bool.false_eq_true, ↓reduceIte, hl, iterate, forwardDownlinkTxAckLoop,
        State.spawn]
      exact h2
    · intro t0 h0
      apply h3 t0
      simp only [step, Bool.false_eq_true, ↓reduceIte, hl, iterate, forwardDownlinkTxAckLoop,
        State.spawn, State.pending, List.mem_append, List.mem_cons,
        List.mem_singleton, List.map_cons] at h0 ⊢
      tauto
    · simp only [step, Bool.false_eq_true, ↓reduceIte, hl, iterate, forwardDownlinkTxAckLoop,
        State.spawn, State.size, List.length_cons, List.length_append, List.length_nil]
      omega
  rcases c5 with _ | ⟨e, es⟩
  swap
  · have hl : Loop.forwardRawPacketForwarderEventLoop ∈ ru := h2 _ (by decide)
    refine ⟨Loop.forwardRawPacketForwarderEventLoop, ⟨?_, ?_, ?_⟩, ?_⟩
    · simp only [step, Bool.false_eq_true, ↓reduceIte, hl, iterate, forwardRawPacketForwarderEventLoop,
        State.spawn]
    · simp only [step, Bool.false_eq_true, ↓reduceIte, hl, iterate, forwardRawPacketForwarderEventLoop,
        State.spawn]
      exact h2
    · intro t0 h0
      apply h3 t0
      simp only [step, Bool.false_eq_true, ↓reduceIte, hl, iterate, forwardRawPacketForwarderEventLoop,
        State.spawn, State.pending, List.mem_append, List.mem_cons,
        List.mem_singleton, List.map_cons] at h0 ⊢
      tauto
    · simp only [step, Bool.false_eq_true, ↓reduceIte, hl, iterate, forwardRawPacketForwarderEventLoop,
        State.spawn, State.size, List.length_cons, List.length_append, List.length_nil]
      omega
  rcases c6 with _ | ⟨e, es⟩
  swap
  · have hl : Loop.forwardDownlinkFrameLoop ∈ ru := h2 _ (by decide)
    refine ⟨Loop.forwardDownlinkFrameLoop, ⟨?_, ?_, ?_⟩, ?_⟩
    · simp only [step, Bool.false_eq_true, ↓reduceIte, hl, iterate, forwardDownlinkFrameLoop,
        State.spawn]
    · simp only [step, Bool.false_eq_true, ↓reduceIte, hl, iterate, forwardDownlinkFrameLoop,
        State.spawn]
      exact h2
    · intro t0 h0
      apply h3 t0
      simp only [step, Bool.false_eq_true, ↓reduceIte, hl, iterate, forwardDownlinkFrameLoop,
        State.spawn, State.pending, List.mem_append, List.mem_cons,
        List.mem_singleton, List.map_cons] at h0 ⊢
      tauto
    · simp only [step, Bool.false_eq_true, ↓reduceIte, hl, iterate, forwardDownlinkFrameLoop,
        State.spawn, State.size, List.length_cons, List.length_append, List.length_nil]
      omega
  rcases c7 with _ | ⟨e, es⟩
  swap
  · have hl : Loop.forwardGatewayConfigurationLoop ∈ ru := h2 _ (by decide)
    refine ⟨Loop.forwardGatewayConfigurationLoop, ⟨?_, ?_, ?_⟩, ?_⟩
    · simp only [step, Bool.false_eq_true, ↓reduceIte, hl, iterate, forwardGatewayConfigurationLoop,
        State.spawn]
    · simp only [step, Bool.false_eq_true, ↓reduceIte, hl, iterate, forwardGatewayConfigurationLoop,
        State.spawn]
      exact h2
    · intro t0 h0
      apply h3 t0
      simp only [step, Bool.false_eq_true, ↓reduceIte, hl, iterate, forwardGatewayConfigurationLoop,
        State.spawn, State.pending, List.mem_append, List.mem_cons,
        List.mem_singleton, List.map_cons] at h0 ⊢
      tauto
    · simp only [step, Bool.false_eq_true, ↓reduceIte, hl, iterate, forwardGatewayConfigurationLoop,
        State.spawn, State.size, List.length_cons, List.length_append, List.length_nil]
      omega
  rcases c8 with _ | ⟨e, es⟩
  swap
  · have hl : Loop.forwardRawPacketForwarderCommandLoop ∈ ru := h2 _ (by decide)
    refine ⟨Loop.forwardRawPacketForwarderCommandLoop, ⟨?_, ?_, ?_⟩, ?_⟩
    · simp only [step, Bool.false_eq_true, ↓reduceIte, hl, iterate, forwardRawPacketForwarderCommandLoop,
        State.spawn]
    · simp only [step, Bool.false_eq_true, ↓reduceIte, hl, iterate, forwardRawPacketForwarderCommandLoop,
        State.spawn]
      exact h2
    · intro t0 h0
      apply h3 t0
      simp only [step, Bool.false_eq_true, ↓reduceIte, hl, iterate, forwardRawPacketForwarderCommandLoop,
        State.spawn, State.pending, List.mem_append, List.mem_cons,
        List.mem_singleton, List.map_cons] at h0 ⊢
      tauto
    · simp only [step, Bool.false_eq_true, ↓reduceIte, hl, iterate, forwardRawPacketForwarderCommandLoop,
        State.spawn, State.size, List.length_cons, List.length_append, List.length_nil]
      omega
  exact absurd rfl hne

/-- In a healthy state that is not drained, some step keeps the state healthy and
reduces the work left. -/
theorem progress (w : World) (s : State) (h : s.healthy) (hq : ¬ s.quiescent) :
    ∃ ch, (step w s ch).healthy ∧ (step w s ch).size < s.size := by
  cases ht : s.tasks with
  | cons t ts => exact ⟨Choice.run 0, healthy_run w s t ts ht h⟩
  | nil =>
    have hne : s.chans ≠ ⟨[], [], [], [], [], [], [], []⟩ := fun hc => hq ⟨ht, hc⟩
    obtain ⟨l, hl⟩ := healthy_recv w s h hne
    exact ⟨Choice.recv l, hl⟩

/-- From a healthy state some schedule drains every channel and runs every goroutine,
whatever the endpoints answer. -/
theorem exists_quiescent (w : World) : ∀ (n : Nat) (s : State), s.size ≤ n → s.healthy →
    ∃ sched, (exec w s sched).quiescent ∧ (exec w s sched).healthy := by
  intro n
  induction n with
  | zero =>
    intro s hn h
    by_cases hq : s.quiescent
    · exact ⟨[], hq, h⟩
    · obtain ⟨ch, _, h2⟩ := progress w s h hq
      omega
  | succ n ih =>
    intro s hn h
    by_cases hq : s.quiescent
    · exact ⟨[], hq, h⟩
    · obtain ⟨ch, h1, h2⟩ := progress w s h hq
      obtain ⟨sched, h3, h4⟩ := ih (step w s ch) (by omega) h1
      exact ⟨ch :: sched, h3, h4⟩

/-! ## The relay loops -/

/-- C1, counterexample: an uplink frame without `RxInfo` gets no call at all and ends
the process, so that an acknowledgement received before is never published; an uplink
frame whose gateway id holds the 3 bytes `[1, 2, 3]` is published under the padded id
`[1, 2, 3, 0, 0, 0, 0, 0]`; and a stats message is published with its metadata
replaced. -/
theorem relay_item_dropped_padded_or_altered :
    ((exec emptyWorld (State.afterSetup chansNilAck) schedNilAck).crashed = true ∧
      callsOf (exec emptyWorld (State.afterSetup chansNilAck) schedNilAck).trace =
        [Call.SetGatewaySubscription true gw01] ∧
      (exec emptyWorld (State.afterSetup chansNilAck) schedNilAck).tasks =
        [Task.txAck ack01]) ∧
    ((Payload.UplinkFrame shortFrame).gatewayIdField = some [1, 2, 3] ∧
      callsOf (forwardUplinkFrameLoop.func emptyWorld shortFrame
          (State.init Chans.empty)).trace =
        [Call.PublishEvent gwShort EventType.EventUp idShort (Payload.UplinkFrame shortFrame)] ∧
      gwShort.val ≠ [1, 2, 3]) ∧
    (callsOf (forwardGatewayStatsLoop.func (failingWorld (Error.new "e")) stats01
          (State.init Chans.empty)).trace =
        [Call.PublishEvent gw01 EventType.EventStats id01
          (Payload.GatewayStats { stats01 with MetaData := [("region", "eu868")] })] ∧
      Payload.GatewayStats { stats01 with MetaData := [("region", "eu868")] } ≠
        Payload.GatewayStats stats01) := by
  decide

/-- C1, amended: the goroutine of a received item makes at most one call, and exactly
one unless the item is an uplink frame without `RxInfo`, whose goroutine makes no call and
ends the process.  The call carries the item as received, except that a stats message is
published with its metadata replaced by the provider's value: an uplink frame with
`RxInfo` yields one `PublishEvent(gatewayID, EventUp, uplinkID, frame)` whose ids are the
id fields copied into 8 and 16 bytes, hence `G` and `U` themselves when the fields hold
exactly the 8 bytes of `G` and the 16 bytes of `U`; likewise under `EventAck` for an
acknowledgement and under `EventRaw` for a raw event; a downlink frame, a gateway
configuration or a raw command yields one `SendDownlinkFrame`, `ApplyConfiguration` or
`RawPacketForwarderCommand` call with exactly the received command.  The call of a
goroutine is the call that its item owes, and only an uplink frame without `RxInfo` owes
none.  Along every schedule, whatever the endpoints answer, the calls made and the calls
still owed stay the same up to the metadata of stats, so that when all is drained every
call has been made exactly as many times as items owed it; and from a healthy state some
schedule does drain everything. -/
theorem relay_calls_once_unmodified (w : World) (s : State) :
    (∀ (f : UplinkFrame) (rx : UplinkRXInfo), f.RxInfo = some rx →
      callsOf (forwardUplinkFrameLoop.func w f s).trace =
        callsOf s.trace ++
          [Call.PublishEvent (copy (zeroBytes 8) rx.GatewayId) EventType.EventUp
            (copy (zeroBytes 16) rx.UplinkId) (Payload.UplinkFrame f)]) ∧
    (∀ (f : UplinkFrame) (rx : UplinkRXInfo) (G : EUI64) (U : UUID),
      f.RxInfo = some rx → rx.GatewayId = G.val → rx.UplinkId = U.val →
      callsOf (forwardUplinkFrameLoop.func w f s).trace =
        callsOf s.trace ++
          [Call.PublishEvent G EventType.EventUp U (Payload.UplinkFrame f)]) ∧
    (∀ f : UplinkFrame, f.RxInfo = none →
      callsOf (forwardUplinkFrameLoop.func w f s).trace = callsOf s.trace ∧
      (forwardUplinkFrameLoop.func w f s).crashed = true) ∧
    (∀ a : DownlinkTXAck,
      callsOf (forwardDownlinkTxAckLoop.func w a s).trace =
        callsOf s.trace ++
          [Call.PublishEvent (copy (zeroBytes 8) a.GatewayId) EventType.EventAck
            (copy (zeroBytes 16) a.DownlinkId) (Payload.DownlinkTXAck a)]) ∧
    (∀ (a : DownlinkTXAck) (G : EUI64) (U : UUID),
      a.GatewayId = G.val → a.DownlinkId = U.val →
      callsOf (forwardDownlinkTxAckLoop.func w a s).trace =
        callsOf s.trace ++
          [Call.PublishEvent G EventType.EventAck U (Payload.DownlinkTXAck a)]) ∧
    (∀ r : RawPacketForwarderEvent,
      callsOf (forwardRawPacketForwarderEventLoop.func w r s).trace =
        callsOf s.trace ++
          [Call.PublishEvent (copy (zeroBytes 8) r.GatewayId) EventType.EventRaw
            (copy (zeroBytes 16) r.RawId) (Payload.RawPacketForwarderEvent r)]) ∧
    (∀ (r : RawPacketForwarderEvent) (G : EUI64) (U : UUID),
      r.GatewayId = G.val → r.RawId = U.val →
      callsOf (forwardRawPacketForwarderEventLoop.func w r s).trace =
        callsOf s.trace ++
          [Call.PublishEvent G EventType.EventRaw U (Payload.RawPacketForwarderEvent r)]) ∧
    (∀ v : GatewayStats,
      callsOf (forwardGatewayStatsLoop.func w v s).trace =
        callsOf s.trace ++
          [Call.PublishEvent (copy (zeroBytes 8) v.GatewayId) EventType.EventStats
            (copy (zeroBytes 16) v.StatsId)
            (Payload.GatewayStats { v with MetaData := w.metadataGet s.trace })]) ∧
    (∀ v : DownlinkFrame,
      callsOf (forwardDownlinkFrameLoop.func w v s).trace =
        callsOf s.trace ++ [Call.SendDownlinkFrame v]) ∧
    (∀ v : GatewayConfiguration,
      callsOf (forwardGatewayConfigurationLoop.func w v s).trace =
        callsOf s.trace ++ [Call.ApplyConfiguration v]) ∧
    (∀ v : RawPacketForwarderCommand,
      callsOf (forwardRawPacketForwarderCommandLoop.func w v s).trace =
        callsOf s.trace ++ [Call.RawPacketForwarderCommand v]) ∧
    (∀ t : Task,
      callsOf (t.run w s).trace =
        callsOf s.trace ++ (t.call (w.metadataGet s.trace)).toList) ∧
    (∀ (md : MetaData) (t : Task),
      t.call md = none ↔ ∃ f : UplinkFrame, t = Task.uplinkFrame f ∧ f.RxInfo = none) ∧
    (∀ sched : List Choice, (exec w s sched).ledger.Perm s.ledger) ∧
    (∀ (sched : List Choice) (c : Call), c.isStats = false →
      (callsOf (exec w s sched).trace).count c + (exec w s sched).owed.count c =
        (callsOf s.trace).count c + s.owed.count c) ∧
    (∀ sched : List Choice, (exec w s sched).quiescent →
      ((callsOf (exec w s sched).trace).map Call.strip).Perm
        ((callsOf s.trace).map Call.strip ++ s.owed)) ∧
    (∀ sched : List Choice, (exec w s sched).quiescent → ∀ c : Call, c.isStats = false →
      (callsOf (exec w s sched).trace).count c = (callsOf s.trace).count c + s.owed.count c) ∧
    (s.healthy → ∃ sched : List Choice,
      (exec w s sched).quiescent ∧ (exec w s sched).crashed = false) := by
  have hcons : ∀ (sched : List Choice) (c : Call), c.isStats = false →
      (callsOf (exec w s sched).trace).count c + (exec w s sched).owed.count c =
        (callsOf s.trace).count c + s.owed.count c := by
    intro sched c hc
    have h := ledger_exec w sched s c
    simp only [State.ledger, List.count_append, count_strip c hc] at h
    exact h
  have hup : ∀ (f : UplinkFrame) (rx : UplinkRXInfo), f.RxInfo = some rx →
      callsOf (forwardUplinkFrameLoop.func w f s).trace =
        callsOf s.trace ++
          [Call.PublishEvent (copy (zeroBytes 8) rx.GatewayId) EventType.EventUp
            (copy (zeroBytes 16) rx.UplinkId) (Payload.UplinkFrame f)] := by
    intro f rx h1
    simp only [forwardUplinkFrameLoop.func, forwardUplinkFrameLoop.ids, h1, callsOf_perform]
  have hack : ∀ a : DownlinkTXAck,
      callsOf (forwardDownlinkTxAckLoop.func w a s).trace =
        callsOf s.trace ++
          [Call.PublishEvent (copy (zeroBytes 8) a.GatewayId) EventType.EventAck
            (copy (zeroBytes 16) a.DownlinkId) (Payload.DownlinkTXAck a)] := by
    intro a
    simp only [forwardDownlinkTxAckLoop.func, forwardDownlinkTxAckLoop.ids, callsOf_perform]
  have hraw : ∀ r : RawPacketForwarderEvent,
      callsOf (forwardRawPacketForwarderEventLoop.func w r s).trace =
        callsOf s.trace ++
          [Call.PublishEvent (copy (zeroBytes 8) r.GatewayId) EventType.EventRaw
            (copy (zeroBytes 16) r.RawId) (Payload.RawPacketForwarderEvent r)] := by
    intro r
    simp only [forwardRawPacketForwarderEventLoop.func,
      forwardRawPacketForwarderEventLoop.ids, callsOf_perform]
  refine ⟨hup, ?_, ?_, hack, ?_, hraw, ?_, ?_, ?_, ?_, ?_, ?_, ?_, ?_, hcons, ?_, ?_, ?_⟩
  · intro f rx G U h1 h2 h3
    rw [hup f rx h1, h2, h3, copy_zeroBytes_exact, copy_zeroBytes_exact]
  · intro f h
    simp [forwardUplinkFrameLoop.func, forwardUplinkFrameLoop.ids, h, State.fault,
      callsOf_append, callsOf]
  · intro a G U h2 h3
    rw [hack a, h2, h3, copy_zeroBytes_exact, copy_zeroBytes_exact]
  · intro r G U h2 h3
    rw [hraw r, h2, h3, copy_zeroBytes_exact, copy_zeroBytes_exact]
  · intro v
    simp only [forwardGatewayStatsLoop.func, forwardGatewayStatsLoop.ids, callsOf_perform]
  · intro v
    simp only [forwardDownlinkFrameLoop.func, callsOf_perform]
  · intro v
    simp only [forwardGatewayConfigurationLoop.func, callsOf_perform]
  · intro v
    simp only [forwardRawPacketForwarderCommandLoop.func, callsOf_perform]
  · intro t
    rw [Task.run_eq]
    cases t.call (w.metadataGet s.trace) with
    | none => simp [State.fault, callsOf_append, callsOf]
    | some c => simp [callsOf_perform]
  · intro md t
    cases t with
    | uplinkFrame f =>
      obtain ⟨phy, tx, rx⟩ := f
      cases rx <;> simp [Task.call, forwardUplinkFrameLoop.ids]
    | stats v => simp [Task.call]
    | txAck v => simp [Task.call]
    | rawEvent v => simp [Task.call]
    | downlinkFrame v => simp [Task.call]
    | gatewayConfig v => simp [Task.call]
    | rawCommand v => simp [Task.call]
  · intro sched
    exact List.perm_iff_count.mpr (ledger_exec w sched s)
  · intro sched hq
    have h := List.perm_iff_count.mpr (ledger_exec w sched s)
    simpa only [State.ledger, quiescent_owed _ hq, List.append_nil] using h
  · intro sched hq c hc
    have h := hcons sched c hc
    rw [quiescent_owed _ hq] at h
    simpa using h
  · intro h
    obtain ⟨sched, hq, hh⟩ := exists_quiescent w s.size s (le_refl _) h
    exact ⟨sched, hq, hh.1⟩

/-- Witness of C1 as amended: after `Setup`, one uplink frame and one downlink frame are
received and their goroutines run, in a world where every call fails; each is delivered
once. -/
theorem relay_calls_once_unmodified_witness :
    (State.afterSetup chansUpDown).healthy ∧
    (exec (failingWorld (Error.new "e")) (State.afterSetup chansUpDown) schedUpDown).quiescent ∧
    (State.afterSetup chansUpDown).owed =
      [Call.PublishEvent gw01 EventType.EventUp id01 (Payload.UplinkFrame frame01),
       Call.SendDownlinkFrame down01] ∧
    (callsOf (exec (failingWorld (Error.new "e")) (State.afterSetup chansUpDown)
        schedUpDown).trace).count
      (Call.PublishEvent gw01 EventType.EventUp id01 (Payload.UplinkFrame frame01)) = 1 ∧
    (callsOf (exec (failingWorld (Error.new "e")) (State.afterSetup chansUpDown)
        schedUpDown).trace).count (Call.SendDownlinkFrame down01) = 1 ∧
    callsOf (forwardUplinkFrameLoop.func (failingWorld (Error.new "e")) frame01
        (State.afterSetup chansUpDown)).trace =
      callsOf (State.afterSetup chansUpDown).trace ++
        [Call.PublishEvent gw01 EventType.EventUp id01 (Payload.UplinkFrame frame01)] := by
  obtain ⟨_, hexact, _, _, _, _, _, _, _, _, _, _, _, _, _, _, hcount, _⟩ :=
    relay_calls_once_unmodified (failingWorld (Error.new "e")) (State.afterSetup chansUpDown)
  refine ⟨by decide, by decide, by decide, ?_, ?_, ?_⟩
  · exact (hcount schedUpDown (by decide)
      (Call.PublishEvent gw01 EventType.EventUp id01 (Payload.UplinkFrame frame01)) rfl).trans
      (by decide)
  · exact (hcount schedUpDown (by decide) (Call.SendDownlinkFrame down01) rfl).trans
      (by decide)
  · exact hexact frame01 _ gw01 id01 rfl rfl rfl

/-- C6, counterexample: when `metadata.Get()` returns an empty map, the stats message
handed to `PublishEvent` carries empty metadata, even though the received one carried
some. -/
theorem stats_published_with_empty_metadata :
    stats01.MetaData = [("k", "v")] ∧
    callsOf (forwardGatewayStatsLoop.func emptyWorld stats01 (State.init Chans.empty)).trace =
      [Call.PublishEvent gw01 EventType.EventStats id01
        (Payload.GatewayStats { stats01 with MetaData := [] })] := by
  decide

/-- C6, amended: for every stats message received from the backend, whatever metadata
it carried, the goroutine makes one `PublishEvent` call whose payload is the message with
its metadata replaced by what `metadata.Get()` returns at that moment; the published
metadata is non-empty exactly when the provider returns a non-empty value. -/
theorem stats_published_with_provider_metadata (w : World) (stats : GatewayStats)
    (s : State) :
    callsOf (forwardGatewayStatsLoop.func w stats s).trace =
      callsOf s.trace ++
        [Call.PublishEvent (copy (zeroBytes 8) stats.GatewayId) EventType.EventStats
          (copy (zeroBytes 16) stats.StatsId)
          (Payload.GatewayStats { stats with MetaData := w.metadataGet s.trace })] ∧
    (({ stats with MetaData := w.metadataGet s.trace } : GatewayStats).MetaData ≠ [] ↔
      w.metadataGet s.trace ≠ []) := by
  refine ⟨?_, Iff.rfl⟩
  simp only [forwardGatewayStatsLoop.func, forwardGatewayStatsLoop.ids, callsOf_perform]

/-- Witness of C6 as amended: the provider returns one entry, which replaces the entry
that the message carried. -/
theorem stats_published_with_provider_metadata_witness :
    callsOf (forwardGatewayStatsLoop.func (failingWorld (Error.new "e")) stats01
        (State.init Chans.empty)).trace =
      [Call.PublishEvent gw01 EventType.EventStats id01
        (Payload.GatewayStats { stats01 with MetaData := [("region", "eu868")] })] :=
  (stats_published_with_provider_metadata (failingWorld (Error.new "e")) stats01
    (State.init Chans.empty)).1.trans (by decide)

/-- C7: what the endpoints answer has no influence on what happens next: along every
schedule the loops, the channels, the waiting goroutines and the liveness of the process
are the same in two worlds that answer differently, and so is the sequence of calls made
(up to the metadata of stats); the calls made and the calls still owed always add up to
those of the start, so a failure loses no later call; a waiting goroutine that is
scheduled makes its call whatever failed before; a failed call leaves the state as a
successful one does, apart from the trace; and from a healthy state one and the same
schedule delivers everything in both worlds. -/
theorem failures_do_not_stop_delivery (w w' : World) (s : State) (sched : List Choice) :
    (exec w s sched).control = (exec w' s sched).control ∧
    (callsOf (exec w s sched).trace).map Call.strip =
      (callsOf (exec w' s sched).trace).map Call.strip ∧
    (exec w s sched).ledger.Perm s.ledger ∧
    (∀ (k : Nat) (t : Task) (c : Call), (exec w s sched).crashed = false →
      (exec w s sched).tasks.get? k = some t → t.call [] = some c →
      (callsOf (step w (exec w s sched) (Choice.run k)).trace).map Call.strip =
        (callsOf (exec w s sched).trace).map Call.strip ++ [c]) ∧
    (∀ (c : Call) (entry : Error → LogEntry),
      (s.perform w c entry).control = s.control ∧
      callsOf (s.perform w c entry).trace = callsOf s.trace ++ [c]) ∧
    (s.healthy → ∃ all : List Choice,
      (exec w s all).quiescent ∧ (exec w' s all).quiescent ∧
      ((callsOf (exec w s all).trace).map Call.strip).Perm
        ((callsOf s.trace).map Call.strip ++ s.owed) ∧
      ((callsOf (exec w' s all).trace).map Call.strip).Perm
        ((callsOf s.trace).map Call.strip ++ s.owed)) := by
  refine ⟨exec_control w w' sched s s rfl, exec_calls w w' sched s s rfl rfl,
    List.perm_iff_count.mpr (ledger_exec w sched s), ?_, ?_, ?_⟩
  · intro k t c hc ht hcall
    rw [step_calls]
    simp only [State.next, hc, Bool.false_eq_true, ↓reduceIte, ht, hcall, Option.toList]
  · intro c entry
    exact ⟨perform_control s w c entry, callsOf_perform s w c entry⟩
  · intro h
    obtain ⟨all, hq, _⟩ := exists_quiescent w s.size s (le_refl _) h
    have hc := exec_control w w' all s s rfl
    simp only [State.control, Prod.mk.injEq] at hc
    have hq' : (exec w' s all).quiescent := ⟨hc.2.2.1 ▸ hq.1, hc.2.2.2.1 ▸ hq.2⟩
    have p1 := List.perm_iff_count.mpr (ledger_exec w all s)
    have p2 := List.perm_iff_count.mpr (ledger_exec w' all s)
    simp only [State.ledger, quiescent_owed _ hq, quiescent_owed _ hq',
      List.append_nil] at p1 p2
    exact ⟨all, hq, hq', p1, p2⟩

/-- Witness of C7: with every call failing, the uplink frame and the downlink frame
received after `Setup` are delivered exactly as when every call succeeds. -/
theorem failures_do_not_stop_delivery_witness :
    (exec (failingWorld (Error.new "e")) (State.afterSetup chansUpDown) schedUpDown).control =
      (exec emptyWorld (State.afterSetup chansUpDown) schedUpDown).control ∧
    callsOf (exec emptyWorld (State.afterSetup chansUpDown) schedUpDown).trace =
      [Call.SetGatewaySubscription true gw01, Call.SendDownlinkFrame down01,
       Call.PublishEvent gw01 EventType.EventUp id01 (Payload.UplinkFrame frame01)] ∧
    (callsOf (exec (failingWorld (Error.new "e")) (State.afterSetup chansUpDown)
        schedUpDown).trace).map Call.strip =
      [Call.SetGatewaySubscription true gw01, Call.SendDownlinkFrame down01,
       Call.PublishEvent gw01 EventType.EventUp id01 (Payload.UplinkFrame frame01)] :=
  ⟨(failures_do_not_stop_delivery (failingWorld (Error.new "e")) emptyWorld
      (State.afterSetup chansUpDown) schedUpDown).1,
    by decide,
    ((failures_do_not_stop_delivery (failingWorld (Error.new "e")) emptyWorld
      (State.afterSetup chansUpDown) schedUpDown).2.1).trans (by decide)⟩

/-! ## The subscription synchronizer -/

/-- C8: along every schedule and whatever the calls answer, the `SetGatewaySubscription`
calls made are, in order, one call `(intent.Subscribe, intent.GatewayID)` per intent
received from the channel, the intents received being a prefix of the channel; and the
loop, scheduled `n` times, receives the next `n` intents even when every call fails. -/
theorem subscription_calls_follow_intents (w : World) (s : State) (sched : List Choice) :
    (∃ received : List SubscribeEvent,
      s.chans.SubscribeEventChan = received ++ (exec w s sched).chans.SubscribeEventChan ∧
      subscriptionCalls (exec w s sched).trace =
        subscriptionCalls s.trace ++
          received.map fun event =>
            Call.SetGatewaySubscription event.Subscribe event.GatewayID) ∧
    (∀ n : Nat, s.crashed = false → Loop.gatewaySubscribeLoop ∈ s.running →
      n ≤ s.chans.SubscribeEventChan.length →
      (exec w s
          (List.replicate n (Choice.recv Loop.gatewaySubscribeLoop))).chans.SubscribeEventChan =
        s.chans.SubscribeEventChan.drop n ∧
      subscriptionCalls
          (exec w s (List.replicate n (Choice.recv Loop.gatewaySubscribeLoop))).trace =
        subscriptionCalls s.trace ++
          (s.chans.SubscribeEventChan.take n).map fun event =>
            Call.SetGatewaySubscription event.Subscribe event.GatewayID) :=
  ⟨exec_subscription w sched s, fun n hc hr hn => exec_subscribe_loop w n s hc hr hn⟩

/-- Witness of C8: two intents for the same gateway, every call failing. -/
theorem subscription_calls_follow_intents_witness :
    (State.afterSetup chansIntents).crashed = false ∧
    Loop.gatewaySubscribeLoop ∈ (State.afterSetup chansIntents).running ∧
    subscriptionCalls
        (exec (failingWorld (Error.new "e")) (State.afterSetup chansIntents)
          (List.replicate 2 (Choice.recv Loop.gatewaySubscribeLoop))).trace =
      [Call.SetGatewaySubscription true gw01, Call.SetGatewaySubscription true gw01,
       Call.SetGatewaySubscription false gw01] :=
  ⟨by decide, by decide,
    ((subscription_calls_follow_intents (failingWorld (Error.new "e"))
      (State.afterSetup chansIntents) []).2 2 (by decide) (by decide) (by decide)).2.trans
      (by decide)⟩

/-! ## Logging -/

/-- C9, counterexample: the entry logged when a `SetGatewaySubscription` call of the
subscription loop fails carries the error and no field at all, so no gateway id. -/
theorem subscription_failure_logged_without_gateway_id :
    (iterate (failingWorld (Error.new "e")) Loop.gatewaySubscribeLoop
        (State.init { Chans.empty with SubscribeEventChan := [⟨true, gw01⟩] })).trace =
      [Ev.call (Call.SetGatewaySubscription true gw01) (some (Error.new "e")),
       Ev.log { err := Error.new "e", fields := [], msg := "set gateway subscription error" }] := by
  decide

/-- C9, amended: along every schedule the trace grows by steps in which a failed call is
immediately followed by exactly one error log entry and a successful call by none, and
there is no other entry; the entry of a failed `PublishEvent` carries the error, the
gateway id, the event kind and the correlation id under the key of the kind
(`uplink_id`, `stats_id`, `downlink_id`, `raw_id`); the entry of a failed
`SetGatewaySubscription` carries the error only. -/
theorem failed_calls_are_logged_once (w : World) (s : State) (sched : List Choice) :
    (∃ δ : List Ev, (exec w s sched).trace = s.trace ++ δ ∧ Steps w s.trace δ ∧
      logsOf δ = failures δ) ∧
    (∀ (gatewayID : EUI64) (event : EventType) (id : UUID) (v : Payload) (err : Error),
      (Call.PublishEvent gatewayID event id v).entry err =
        { err := err,
          fields := [("gateway_id", FieldValue.eui64 gatewayID),
                     ("event_type", FieldValue.eventType event),
                     (event.idKey, FieldValue.uuid id)],
          msg := "publish event error" }) ∧
    (EventType.EventUp.idKey = "uplink_id" ∧ EventType.EventStats.idKey = "stats_id" ∧
      EventType.EventAck.idKey = "downlink_id" ∧ EventType.EventRaw.idKey = "raw_id") ∧
    (∀ (subscribe : Bool) (gatewayID : EUI64) (err : Error),
      (Call.SetGatewaySubscription subscribe gatewayID).entry err =
        { err := err, fields := [], msg := "set gateway subscription error" }) := by
  refine ⟨?_, fun _ _ _ _ _ => rfl, ⟨rfl, rfl, rfl, rfl⟩, fun _ _ _ => rfl⟩
  obtain ⟨δ, h1, h2⟩ := exec_steps w sched s
  exact ⟨δ, h1, h2, steps_logs h2⟩

/-- Witness of C9 as amended: the uplink frame and the downlink frame received after
`Setup`, every call failing; two calls fail and two entries are logged. -/
theorem failed_calls_are_logged_once_witness :
    logsOf (exec (failingWorld (Error.new "e")) (State.afterSetup chansUpDown)
        schedUpDown).trace =
      [{ err := Error.new "e", fields := [], msg := "send downlink frame error" },
       { err := Error.new "e",
         fields := [("gateway_id", FieldValue.eui64 gw01),
                    ("event_type", FieldValue.eventType EventType.EventUp),
                    ("uplink_id", FieldValue.uuid id01)],
         msg := "publish event error" }] ∧
    ∃ δ : List Ev,
      (exec (failingWorld (Error.new "e")) (State.afterSetup chansUpDown) schedUpDown).trace =
        (State.afterSetup chansUpDown).trace ++ δ ∧
      Steps (failingWorld (Error.new "e")) (State.afterSetup chansUpDown).trace δ ∧
      logsOf δ = failures δ :=
  ⟨by decide,
    (failed_calls_are_logged_once (failingWorld (Error.new "e")) (State.afterSetup chansUpDown)
      schedUpDown).1⟩

end forwarder
